import Mathlib

/-!
Secure OCRAM partitioning on i.MX7 (`imx_ocram.c`) and the software HMAC
context allocator (`hmac_sw.c`).

A shallow embedding of `core/arch/arm/plat-imx/imx_ocram.c` in the
configuration `CFG_MX7` + `CFG_DT`, and of `do_allocate` from
`core/lib/libimxcrypt/crypto_sw/tomcrypt/mac/hmac_sw.c`.

* `paddr_t`, `vaddr_t` and `uint32_t` are 32-bit on this target: they are
  natural numbers reduced with `u32` wherever the C code can wrap or truncate.
* Macros and constants that come from headers (`imx-regs.h`, `imx_pm.h`,
  `tee_mmu_types.h`, ...) are fields of `Platform`.
* The two static tables of the file (`tz_ocram_match`, `phys_addr_imx7`) are
  passed as arguments, so that properties can quantify over them; the tables
  of the source are the definitions `tz_ocram_match` and `phys_addr_imx7`.
* Calls that leave the file (`io_write32`, `dt_overwrite`, `memset`,
  `map_memarea_sections`) append an `Event` to the trace of the state;
  `io_read32` and `phys_to_virt` are answered by an `Env`.
* A call of `panic` does not return: a run ends in `Outcome.panic` carrying
  the state at the call.
-/

namespace ImxOptee

/-! ## Machine words -/

/-- Truncation to 32 bits (`uint32_t`, and `paddr_t` on this target). -/
def u32 (n : Nat) : Nat := n % 2 ^ 32

/-- The value of `-1UL`: the "unset" sentinel of both global addresses. -/
def PADDR_UNSET : Nat := 0xFFFFFFFF

/-- Bitwise complement of a 32-bit word, the C operator `~`. -/
def not32 (n : Nat) : Nat := 0xFFFFFFFF ^^^ u32 n

/-- Modelled from the spec: the macro ROUNDDOWN comes from util.h, outside
the two source files; "rounded down to section granularity" is the largest
multiple of `size` not above `v`. -/
def ROUNDDOWN (v size : Nat) : Nat := v - v % size

/-! ## Platform constants -/

/-- The constants and macros `imx_ocram.c` takes from headers, and
`TEE_MATTR_MEM_TYPE_MASK`, the width mask of the memory-type field that
`tee_mmu_types.h` declares next to `TEE_MATTR_MEM_TYPE_SHIFT`; the code does
not use the mask, the statements about the memory type do. -/
structure Platform where
  TRUSTZONE_OCRAM_START : Nat
  IRAM_TBL_OFFSET : Nat
  IRAM_S_BASE : Nat
  AIPS1_BASE : Nat
  AIPS2_BASE : Nat
  AIPS3_BASE : Nat
  AIPS1_SIZE : Nat
  GIC_BASE : Nat
  GIC_SIZE : Nat
  CORE_MMU_PGDIR_SIZE : Nat
  IOMUXC_GPR_BASE : Nat
  IOMUXC_SIZE : Nat
  IOMUX_GPR_OCRAM_ID : Nat
  IOMUX_GPRx_OFFSET : Nat → Nat
  BM_IOMUX_GPR_OCRAM_S_TZ_ADDR : Nat
  BP_IOMUX_GPR_OCRAM_S_TZ_ADDR : Nat
  IOMUX_GPR_OCRAM_S_TZ_ENABLE : Nat
  IOMUX_GPR_OCRAM_LOCK : Nat → Nat
  TEE_MATTR_VALID_BLOCK : Nat
  TEE_MATTR_PRW : Nat
  TEE_MATTR_PX : Nat
  TEE_MATTR_GLOBAL : Nat
  TEE_MATTR_SECURE : Nat
  TEE_MATTR_MEM_TYPE_DEV : Nat
  TEE_MATTR_MEM_TYPE_SHIFT : Nat
  TEE_MATTR_MEM_TYPE_MASK : Nat

/-! ## Data model -/

/-- The two memory-area classes the file uses. -/
inductive teecore_memtypes where
  | MEM_AREA_IO_SEC
  | MEM_AREA_TEE_COHERENT
  deriving DecidableEq, Repr

/-- The region descriptor handed to `map_memarea_sections`. -/
structure tee_mmap_region where
  pa : Nat
  va : Nat
  region_size : Nat
  size : Nat
  type : teecore_memtypes
  attr : Nat
  deriving DecidableEq, Repr

/-- The result codes the two files return. -/
inductive TEE_Result where
  | TEE_SUCCESS
  | TEE_ERROR_OUT_OF_MEMORY
  | TEE_ERROR_NOT_IMPLEMENTED
  deriving DecidableEq, Repr

/-- A node of the hardware description: its `compatible` strings and the
value `_fdt_reg_base_address` reports for its `reg` property. -/
structure DtNode where
  compatible : List String
  reg : Nat
  deriving DecidableEq, Repr

/-- The device tree blob: its nodes in offset order, the root first. -/
abbrev Fdt := List DtNode

/-- Effects that leave the file, in the order they happen. -/
inductive Event where
  | io_write32 (addr : Nat) (val : Nat)
  | dt_overwrite (compat : String) (src : String) (dst : String) (n : Nat)
  | memset (va : Nat) (c : Nat) (len : Nat)
  | map_memarea_sections (map : tee_mmap_region) (tlb : Nat)
  deriving DecidableEq, Repr

/-- The globals of the file, the blob `get_dt()` returns, and the trace. -/
structure State where
  iram_tlb_phys_addr : Nat
  ocram_tz_start_addr : Nat
  dt : Option Fdt
  trace : List Event
  deriving DecidableEq, Repr

/-- The state at boot: both globals hold `-1UL`, nothing has happened. -/
def State.boot (dt : Option Fdt) : State :=
  { iram_tlb_phys_addr := PADDR_UNSET, ocram_tz_start_addr := PADDR_UNSET,
    dt := dt, trace := [] }

/-- Append one effect to the trace. -/
def State.emit (s : State) (e : Event) : State :=
  { s with trace := s.trace ++ [e] }

/-- The collaborators that answer reads: `io_read32` sees the whole history
of effects and the address; `phys_to_virt` maps (pa, area, length). -/
structure Env where
  io_read32 : List Event → Nat → Nat
  phys_to_virt : Nat → teecore_memtypes → Nat → Nat

/-- The places where the file calls `panic`. -/
inductive PanicSite where
  | no_dtb
  | node_not_found
  | no_reg_property
  | not_4k_aligned
  | gpr_locked
  | lock_mismatch
  deriving DecidableEq, Repr

/-- How a run ends: it returns, it panics, or it reads past the end of the
aperture table (undefined behaviour in C). -/
inductive Outcome (α : Type) where
  | ok (a : α) (s : State)
  | panic (site : PanicSite) (s : State)
  | undefined (s : State)
  deriving DecidableEq, Repr

/-- The state a run ends in. -/
def Outcome.state {α : Type} : Outcome α → State
  | .ok _ s => s
  | .panic _ s => s
  | .undefined s => s

/-- The register writes recorded in a trace. -/
def reg_writes : List Event → List (Nat × Nat)
  | [] => []
  | .io_write32 a v :: rest => (a, v) :: reg_writes rest
  | _ :: rest => reg_writes rest

/-- The regions handed to `map_memarea_sections` recorded in a trace. -/
def mapped_regions : List Event → List tee_mmap_region
  | [] => []
  | .map_memarea_sections m _ :: rest => m :: mapped_regions rest
  | _ :: rest => mapped_regions rest

/-! ## Locator -/

/-- The getter `imx_get_ocram_tz_start_addr`. -/
def imx_get_ocram_tz_start_addr (P : Platform) (s : State) : Nat :=
  if s.ocram_tz_start_addr ≠ PADDR_UNSET then s.ocram_tz_start_addr
  else P.TRUSTZONE_OCRAM_START

/-- The table `tz_ocram_match` of the source, without its NULL terminator. -/
def tz_ocram_match : List String := ["fsl,optee-lpm-sram"]

/-- Scan of the nodes from offset `off` on for `fdt_node_offset_by_compatible`. -/
def find_compatible_from : List DtNode → Nat → Int → String → Int
  | [], _, _, _ => -1
  | n :: rest, off, startoffset, compat =>
    if startoffset < (off : Int) ∧ compat ∈ n.compatible then (off : Int)
    else find_compatible_from rest (off + 1) startoffset compat

/-- Modelled from the spec: fdt_node_offset_by_compatible belongs to libfdt,
outside the two source files; it is the "find node by identifier string"
primitive: the offset of the first node after `startoffset` that carries the
identifier, and a negative value when there is none. -/
def fdt_node_offset_by_compatible (fdt : Fdt) (startoffset : Int)
    (compat : String) : Int :=
  find_compatible_from fdt 0 startoffset compat

/-- Modelled from the spec: the helper _fdt_reg_base_address is defined
outside the two source files; it is the "read first address from the
address-range property of a node" primitive, a `paddr_t`; an offset that
names no node gives the invalid address (all ones). -/
def _fdt_reg_base_address (fdt : Fdt) (offs : Int) : Nat :=
  if offs < 0 then PADDR_UNSET
  else match fdt.get? offs.toNat with
    | some n => u32 n.reg
    | none => PADDR_UNSET

/-- The `while` loop of `dt_find_ocram_tz_addr`: the remaining entries of the
match table and the running `start_addr`. -/
def dt_find_loop (fdt : Fdt) : List String → Nat → Except PanicSite Nat
  | [], start_addr => .ok start_addr
  | m :: rest, start_addr =>
    let offset := fdt_node_offset_by_compatible fdt 0 m
    if offset < 0 then .error .node_not_found
    else
      let tmp_addr := _fdt_reg_base_address fdt offset
      if tmp_addr = 0 then .error .no_reg_property
      else if tmp_addr &&& 0xFFF ≠ 0 then .error .not_4k_aligned
      else
        dt_find_loop fdt rest
          (if tmp_addr < start_addr ∨ start_addr = PADDR_UNSET then tmp_addr
           else start_addr)

/-- The function `dt_find_ocram_tz_addr`, over the match table `tzm`. -/
def dt_find_ocram_tz_addr (tzm : List String) (s : State) : Outcome Unit :=
  match s.dt with
  | none => .panic .no_dtb s
  | some fdt =>
    match dt_find_loop fdt tzm PADDR_UNSET with
    | .error site => .panic site s
    | .ok start_addr => .ok () { s with ocram_tz_start_addr := start_addr }

/-! ## Partition Configurator -/

/-- Address of the OCRAM GPR register as the code computes it. -/
def ocram_gpr_addr (P : Platform) (E : Env) : Nat :=
  u32 (E.phys_to_virt P.IOMUXC_GPR_BASE .MEM_AREA_IO_SEC P.IOMUXC_SIZE
        + P.IOMUX_GPRx_OFFSET P.IOMUX_GPR_OCRAM_ID)

/-- The local `lock` of `init_tz_ocram`: address field and enable bit. -/
def tz_lock (P : Platform) : Nat :=
  u32 (P.BM_IOMUX_GPR_OCRAM_S_TZ_ADDR ||| P.IOMUX_GPR_OCRAM_S_TZ_ENABLE)

/-- The local `val` of `init_tz_ocram` after its three updates, from the value
`v0` read from the register and the boundary `b`. -/
def tz_val (P : Platform) (v0 b : Nat) : Nat :=
  let val := u32 v0
  let val := val &&& not32 P.BM_IOMUX_GPR_OCRAM_S_TZ_ADDR
  let val := val ||| u32 (u32 ((b >>> 12) <<< P.BP_IOMUX_GPR_OCRAM_S_TZ_ADDR)
                          &&& P.BM_IOMUX_GPR_OCRAM_S_TZ_ADDR)
  val ||| u32 P.IOMUX_GPR_OCRAM_S_TZ_ENABLE

/-- The function `init_tz_ocram`. -/
def init_tz_ocram (P : Platform) (E : Env) (tzm : List String) (s : State) :
    Outcome Unit :=
  match dt_find_ocram_tz_addr tzm s with
  | .panic site s1 => .panic site s1
  | .undefined s1 => .undefined s1
  | .ok _ s1 =>
    let reg := ocram_gpr_addr P E
    let val := tz_val P (E.io_read32 s1.trace reg) (imx_get_ocram_tz_start_addr P s1)
    let lock := tz_lock P
    if P.IOMUX_GPR_OCRAM_LOCK lock &&& val ≠ 0 then .panic .gpr_locked s1
    else
      let s2 := s1.emit (.io_write32 reg val)
      let s3 := s2.emit (.io_write32 reg (u32 (P.IOMUX_GPR_OCRAM_LOCK lock ||| val)))
      let lock_val := u32 (E.io_read32 s3.trace reg)
      if lock_val &&& lock ≠ val &&& lock then .panic .lock_mismatch s3
      else .ok () s3

/-! ## Mapping Builder and Boot Hook -/

/-- The table `phys_addr_imx7` of the source, with its terminator. -/
def phys_addr_imx7 (P : Platform) : List Nat :=
  [P.AIPS1_BASE, P.AIPS2_BASE, P.AIPS3_BASE, 0]

/-- The region the `do ... while` body builds for the table entry `pa`. -/
def aperture_map (P : Platform) (E : Env) (size_area pa : Nat) : tee_mmap_region :=
  { pa := pa,
    va := E.phys_to_virt pa .MEM_AREA_IO_SEC P.CORE_MMU_PGDIR_SIZE,
    region_size := P.CORE_MMU_PGDIR_SIZE,
    size := size_area,
    type := .MEM_AREA_IO_SEC,
    attr := P.TEE_MATTR_VALID_BLOCK ||| P.TEE_MATTR_PRW ||| P.TEE_MATTR_GLOBAL
              ||| P.TEE_MATTR_SECURE
              ||| (P.TEE_MATTR_MEM_TYPE_DEV <<< P.TEE_MATTR_MEM_TYPE_SHIFT) }

/-- The first extra region: the section of `IRAM_S_BASE`. -/
def iram_s_map (P : Platform) (E : Env) : tee_mmap_region :=
  let pa := ROUNDDOWN P.IRAM_S_BASE P.CORE_MMU_PGDIR_SIZE
  { pa := pa,
    va := E.phys_to_virt pa .MEM_AREA_TEE_COHERENT P.CORE_MMU_PGDIR_SIZE,
    region_size := P.CORE_MMU_PGDIR_SIZE,
    size := P.CORE_MMU_PGDIR_SIZE,
    type := .MEM_AREA_TEE_COHERENT,
    attr := P.TEE_MATTR_VALID_BLOCK ||| P.TEE_MATTR_PRW ||| P.TEE_MATTR_GLOBAL
              ||| P.TEE_MATTR_SECURE ||| P.TEE_MATTR_PX }

/-- The second extra region: the interrupt controller. -/
def gic_map (P : Platform) (E : Env) : tee_mmap_region :=
  { pa := P.GIC_BASE,
    va := E.phys_to_virt P.GIC_BASE .MEM_AREA_IO_SEC P.GIC_SIZE,
    region_size := P.CORE_MMU_PGDIR_SIZE,
    size := P.CORE_MMU_PGDIR_SIZE,
    type := .MEM_AREA_TEE_COHERENT,
    attr := P.TEE_MATTR_VALID_BLOCK ||| P.TEE_MATTR_PRW ||| P.TEE_MATTR_GLOBAL
              ||| P.TEE_MATTR_SECURE ||| P.TEE_MATTR_PX }

/-- The `do ... while (*(++phys_addr))` loop of `init_ocram`; the list is the
memory of the table from `phys_addr` on. The body runs before the first test,
and a read at or past the end of the table is undefined. -/
def aperture_loop (P : Platform) (E : Env) (size_area iram_tlb_vaddr : Nat) :
    List Nat → State → Outcome Unit
  | [], s => .undefined s
  | pa :: rest, s =>
    let s1 := s.emit (.map_memarea_sections (aperture_map P E size_area pa) iram_tlb_vaddr)
    match rest with
    | [] => .undefined s1
    | next :: _ =>
      if next ≠ 0 then aperture_loop P E size_area iram_tlb_vaddr rest s1
      else .ok () s1

/-- The mapping part of `init_ocram`: the loop over the aperture table, then
the two extra regions. -/
def mapping_builder (P : Platform) (E : Env) (size_area iram_tlb_vaddr : Nat)
    (phys_addr : List Nat) (s : State) : Outcome Unit :=
  match aperture_loop P E size_area iram_tlb_vaddr phys_addr s with
  | .panic site s1 => .panic site s1
  | .undefined s1 => .undefined s1
  | .ok _ s1 =>
    let s2 := s1.emit (.map_memarea_sections (iram_s_map P E) iram_tlb_vaddr)
    let s3 := s2.emit (.map_memarea_sections (gic_map P E) iram_tlb_vaddr)
    .ok () s3

/-- The function `init_ocram` (the `CFG_MX7` variant). -/
def init_ocram (P : Platform) (E : Env) (tzm : List String) (phys_addr : List Nat)
    (s : State) : Outcome TEE_Result :=
  if s.iram_tlb_phys_addr ≠ PADDR_UNSET then .ok .TEE_SUCCESS s
  else
    match init_tz_ocram P E tzm s with
    | .panic site s1 => .panic site s1
    | .undefined s1 => .undefined s1
    | .ok _ s1 =>
      let s2 := s1.emit (.dt_overwrite "fsl,optee-lpm-sram" "reg" "overw_reg" 3)
      let s3 := s2.emit (.dt_overwrite "fsl,optee-lpm-sram" "clocks" "overw_clock" 3)
      let s4 := { s3 with
        iram_tlb_phys_addr := u32 (imx_get_ocram_tz_start_addr P s3 + P.IRAM_TBL_OFFSET) }
      let size_area := P.AIPS1_SIZE
      let iram_tlb_vaddr :=
        E.phys_to_virt s4.iram_tlb_phys_addr .MEM_AREA_TEE_COHERENT (16 * 1024)
      let s5 := s4.emit (.memset iram_tlb_vaddr 0 (16 * 1024))
      match mapping_builder P E size_area iram_tlb_vaddr phys_addr s5 with
      | .panic site s6 => .panic site s6
      | .undefined s6 => .undefined s6
      | .ok _ s6 => .ok .TEE_SUCCESS s6

/-! ## Sample platform and collaborators -/

/-- A sample i.MX7 instance of the platform constants. The headers that define
them are outside the two source files, so these values are inputs. -/
def imx7 : Platform :=
  { TRUSTZONE_OCRAM_START := 0x180000,
    IRAM_TBL_OFFSET := 0x4000,
    IRAM_S_BASE := 0x00180000,
    AIPS1_BASE := 0x30000000,
    AIPS2_BASE := 0x30400000,
    AIPS3_BASE := 0x30800000,
    AIPS1_SIZE := 0x400000,
    GIC_BASE := 0x31000000,
    GIC_SIZE := 0x8000,
    CORE_MMU_PGDIR_SIZE := 0x100000,
    IOMUXC_GPR_BASE := 0x30340000,
    IOMUXC_SIZE := 0x10000,
    IOMUX_GPR_OCRAM_ID := 11,
    IOMUX_GPRx_OFFSET := fun idx => idx * 4,
    BM_IOMUX_GPR_OCRAM_S_TZ_ADDR := 0x3800,
    BP_IOMUX_GPR_OCRAM_S_TZ_ADDR := 11,
    IOMUX_GPR_OCRAM_S_TZ_ENABLE := 0x400,
    IOMUX_GPR_OCRAM_LOCK := fun value => value <<< 16,
    TEE_MATTR_VALID_BLOCK := 0x1,
    TEE_MATTR_PRW := 0x30,
    TEE_MATTR_PX := 0x40,
    TEE_MATTR_GLOBAL := 0x400,
    TEE_MATTR_SECURE := 0x800,
    TEE_MATTR_MEM_TYPE_DEV := 0,
    TEE_MATTR_MEM_TYPE_SHIFT := 12,
    TEE_MATTR_MEM_TYPE_MASK := 0x7 }

/-- The last value written to `addr` in a trace, `dflt` when there is none. -/
def last_write (addr dflt : Nat) : List Event → Nat
  | [] => dflt
  | .io_write32 a v :: rest => last_write addr (if a = addr then v else dflt) rest
  | _ :: rest => last_write addr dflt rest

/-- A register file that holds `init` at reset and then the last value
written, with an identity address map. -/
def plain_env (init : Nat) : Env :=
  { io_read32 := fun tr addr => last_write addr init tr,
    phys_to_virt := fun pa _ _ => pa }

/-- A register that ignores every write and always reads `v`. -/
def stuck_env (v : Nat) : Env :=
  { io_read32 := fun _ _ => v,
    phys_to_virt := fun pa _ _ => pa }

/-- A description with one secure-SRAM node at `addr` after the root. -/
def fdt_one (addr : Nat) : Fdt :=
  [ { compatible := ["fsl,imx7d"], reg := 0 },
    { compatible := ["fsl,optee-lpm-sram"], reg := addr } ]

/-- A description with two secure-SRAM nodes carrying the same identifier,
at `a` and then at `b`. -/
def fdt_two (a b : Nat) : Fdt :=
  [ { compatible := ["fsl,imx7d"], reg := 0 },
    { compatible := ["fsl,optee-lpm-sram"], reg := a },
    { compatible := ["fsl,optee-lpm-sram"], reg := b } ]

/-! ## Vocabulary of the statements -/

/-- The base address the Locator reads for the identifier `c`: that of the
node its lookup returns. -/
def node_addr (fdt : Fdt) (c : String) : Nat :=
  _fdt_reg_base_address fdt (fdt_node_offset_by_compatible fdt 0 c)

/-- The node the lookup returns for `c` passes the three checks of the loop. -/
def node_ok (fdt : Fdt) (c : String) : Prop :=
  0 ≤ fdt_node_offset_by_compatible fdt 0 c ∧ node_addr fdt c ≠ 0 ∧
    node_addr fdt c % 4096 = 0

instance node_ok_decidable (fdt : Fdt) (c : String) : Decidable (node_ok fdt c) := by
  unfold node_ok
  infer_instance

/-- The state of `init_tz_ocram` after its two register writes, from the
state `s0` in which the Locator returned. -/
def after_lock_writes (P : Platform) (E : Env) (s0 : State) : State :=
  let reg := ocram_gpr_addr P E
  let val := tz_val P (E.io_read32 s0.trace reg) (imx_get_ocram_tz_start_addr P s0)
  (s0.emit (.io_write32 reg val)).emit
    (.io_write32 reg (u32 (P.IOMUX_GPR_OCRAM_LOCK (tz_lock P) ||| val)))

/-- The nodes of the description, after the root, that carry an identifier
of the match list: every node the match patterns match. -/
def matched_nodes (fdt : Fdt) (tzm : List String) : List DtNode :=
  (fdt.drop 1).filter (fun n => tzm.any (fun c => decide (c ∈ n.compatible)))

/-- The two register writes of `init_tz_ocram`, as (address, value) pairs:
the configured value, then the configured value with the lock bits, from the
state `s0` in which the Locator returned. -/
def lock_writes (P : Platform) (E : Env) (s0 : State) : List (Nat × Nat) :=
  let reg := ocram_gpr_addr P E
  let val := tz_val P (E.io_read32 s0.trace reg) (imx_get_ocram_tz_start_addr P s0)
  [(reg, val), (reg, u32 (P.IOMUX_GPR_OCRAM_LOCK (tz_lock P) ||| val))]

/-- The effect of handing the region of the table entry `pa` to the writer. -/
def aperture_event (P : Platform) (E : Env) (size_area iram_tlb_vaddr pa : Nat) : Event :=
  .map_memarea_sections (aperture_map P E size_area pa) iram_tlb_vaddr

/-- The effects of a call of `init_ocram` that starts uninitialised and
returns, in order: the two register writes, the two description rewrites,
the zeroing of the scratch buffer, the regions of the first `n` entries of
the aperture table, and the two extra regions; `s0` is the state in which
the Locator returned. -/
def first_call_effects (P : Platform) (E : Env) (tbl : List Nat) (s0 : State)
    (n : Nat) : List Event :=
  let reg := ocram_gpr_addr P E
  let val := tz_val P (E.io_read32 s0.trace reg) (imx_get_ocram_tz_start_addr P s0)
  let tlb := u32 (imx_get_ocram_tz_start_addr P s0 + P.IRAM_TBL_OFFSET)
  let v := E.phys_to_virt tlb .MEM_AREA_TEE_COHERENT (16 * 1024)
  [.io_write32 reg val,
   .io_write32 reg (u32 (P.IOMUX_GPR_OCRAM_LOCK (tz_lock P) ||| val)),
   .dt_overwrite "fsl,optee-lpm-sram" "reg" "overw_reg" 3,
   .dt_overwrite "fsl,optee-lpm-sram" "clocks" "overw_clock" 3,
   .memset v 0 (16 * 1024)]
    ++ (tbl.take n).map (aperture_event P E P.AIPS1_SIZE v)
    ++ [.map_memarea_sections (iram_s_map P E) v,
        .map_memarea_sections (gic_map P E) v]

/-- Every bit of the flag (or field value) `f` is set in `attr`. -/
def has_flags (attr f : Nat) : Prop := attr &&& f = f

instance has_flags_decidable (attr f : Nat) : Decidable (has_flags attr f) := by
  unfold has_flags
  infer_instance

/-- No bit of the flag `f` is set in `attr`. -/
def lacks_flags (attr f : Nat) : Prop := attr &&& f = 0

instance lacks_flags_decidable (attr f : Nat) : Decidable (lacks_flags attr f) := by
  unfold lacks_flags
  infer_instance

/-- The attribute pattern of the two extra regions. -/
def extra_region_pattern (P : Platform) (r : tee_mmap_region) : Prop :=
  r.type = .MEM_AREA_TEE_COHERENT ∧ has_flags r.attr P.TEE_MATTR_VALID_BLOCK ∧
    has_flags r.attr P.TEE_MATTR_PRW ∧ has_flags r.attr P.TEE_MATTR_GLOBAL ∧
    has_flags r.attr P.TEE_MATTR_SECURE ∧ has_flags r.attr P.TEE_MATTR_PX

instance extra_region_pattern_decidable (P : Platform) (r : tee_mmap_region) :
    Decidable (extra_region_pattern P r) := by
  unfold extra_region_pattern
  infer_instance

/-- The memory-type field of an attribute word: the bits selected by
`TEE_MATTR_MEM_TYPE_MASK` at `TEE_MATTR_MEM_TYPE_SHIFT`. -/
def mem_type (P : Platform) (attr : Nat) : Nat :=
  (attr >>> P.TEE_MATTR_MEM_TYPE_SHIFT) &&& P.TEE_MATTR_MEM_TYPE_MASK

/-- The attribute pattern of the regions of aperture-table entries: device
area type, memory-type field equal to the device type, the four flags set
and the execute flag clear. -/
def aperture_region_pattern (P : Platform) (r : tee_mmap_region) : Prop :=
  r.type = .MEM_AREA_IO_SEC ∧
    mem_type P r.attr = P.TEE_MATTR_MEM_TYPE_DEV ∧
    has_flags r.attr (P.TEE_MATTR_MEM_TYPE_DEV <<< P.TEE_MATTR_MEM_TYPE_SHIFT) ∧
    has_flags r.attr P.TEE_MATTR_VALID_BLOCK ∧ has_flags r.attr P.TEE_MATTR_PRW ∧
    has_flags r.attr P.TEE_MATTR_GLOBAL ∧ has_flags r.attr P.TEE_MATTR_SECURE ∧
    lacks_flags r.attr P.TEE_MATTR_PX

instance aperture_region_pattern_decidable (P : Platform) (r : tee_mmap_region) :
    Decidable (aperture_region_pattern P r) := by
  unfold aperture_region_pattern
  infer_instance

/-! ## Software HMAC context allocation (`hmac_sw.c`) -/

/-- A C pointer: `none` is NULL, `some a` the address `a`. -/
abbrev Ptr := Option Nat

/-- The function `do_allocate`. The table lookup `get_ltc_hashindex` comes
from `local.h` and is an argument; `calloc_ret` is what
`calloc(1, sizeof(hmac_state))` answers (NULL, or the address of a fresh
zero-filled block); `ctx` is the argument `void **ctx`: `none` when it is
NULL, `some v` when it points to a caller variable that holds `v`. The
result is the return code and the caller variable after the call. -/
def do_allocate (get_ltc_hashindex : Nat → Int) (calloc_ret : Ptr) (ctx : Option Ptr)
    (algo : Nat) : TEE_Result × Option Ptr :=
  if get_ltc_hashindex algo = -1 then (.TEE_ERROR_NOT_IMPLEMENTED, ctx)
  else
    let hmac_ctx := calloc_ret
    match ctx with
    | none => (.TEE_ERROR_OUT_OF_MEMORY, ctx)
    | some _ => (.TEE_SUCCESS, some hmac_ctx)

/-- A sample hash-index table: identifiers 0 to 5 are supported. -/
def sample_hashindex (algo : Nat) : Int := if algo < 6 then (algo : Int) else -1

/-! ## Bit-level and loop lemmas, and the properties -/

theorem testBit_allones32 (i : Nat) : (0xFFFFFFFF : Nat).testBit i = decide (i < 32) := by
  have h : (0xFFFFFFFF : Nat) = 2 ^ 32 - 1 := by norm_num
  rw [h, Nat.testBit_two_pow_sub_one]

theorem testBit_u32 (n i : Nat) : (u32 n).testBit i = (decide (i < 32) && n.testBit i) := by
  unfold u32
  rw [Nat.testBit_mod_two_pow]

theorem testBit_not32 (n i : Nat) : (not32 n).testBit i = (decide (i < 32) && !n.testBit i) := by
  unfold not32
  rw [Nat.testBit_xor, testBit_allones32, testBit_u32]
  cases decide (i < 32) <;> simp

theorem and_fff (x : Nat) : x &&& 0xFFF = x % 4096 := by
  have h : (0xFFF : Nat) = 2 ^ 12 - 1 := by norm_num
  rw [h, Nat.and_pow_two_sub_one_eq_mod]

theorem tz_val_and_lock (P : Platform) (v0 b : Nat) :
    tz_val P v0 b &&& tz_lock P
      = u32 ((((b >>> 12) <<< P.BP_IOMUX_GPR_OCRAM_S_TZ_ADDR)
                &&& P.BM_IOMUX_GPR_OCRAM_S_TZ_ADDR) ||| P.IOMUX_GPR_OCRAM_S_TZ_ENABLE) := by
  apply Nat.eq_of_testBit_eq
  intro i
  simp only [tz_val, tz_lock, Nat.testBit_and, Nat.testBit_or, testBit_u32, testBit_not32]
  generalize ((b >>> 12) <<< P.BP_IOMUX_GPR_OCRAM_S_TZ_ADDR).testBit i = a
  cases decide (i < 32) <;> cases a <;> cases P.BM_IOMUX_GPR_OCRAM_S_TZ_ADDR.testBit i <;>
    cases P.IOMUX_GPR_OCRAM_S_TZ_ENABLE.testBit i <;> cases v0.testBit i <;> rfl

theorem tz_val_and_lockbits (P : Platform) (v0 b : Nat)
    (hsep : P.IOMUX_GPR_OCRAM_LOCK (tz_lock P) &&& tz_lock P = 0) :
    P.IOMUX_GPR_OCRAM_LOCK (tz_lock P) &&& tz_val P v0 b
      = P.IOMUX_GPR_OCRAM_LOCK (tz_lock P) &&& u32 v0 := by
  apply Nat.eq_of_testBit_eq
  intro i
  have h := congrArg (fun n => Nat.testBit n i) hsep
  simp only [tz_lock, Nat.testBit_and, Nat.testBit_or, testBit_u32, Nat.zero_testBit] at h
  simp only [tz_val, tz_lock, Nat.testBit_and, Nat.testBit_or, testBit_u32, testBit_not32]
  generalize ((b >>> 12) <<< P.BP_IOMUX_GPR_OCRAM_S_TZ_ADDR).testBit i = a
  generalize (P.IOMUX_GPR_OCRAM_LOCK
    (u32 (P.BM_IOMUX_GPR_OCRAM_S_TZ_ADDR ||| P.IOMUX_GPR_OCRAM_S_TZ_ENABLE))).testBit i = l at h ⊢
  revert h
  cases decide (i < 32) <;> cases a <;> cases P.BM_IOMUX_GPR_OCRAM_S_TZ_ADDR.testBit i <;>
    cases P.IOMUX_GPR_OCRAM_S_TZ_ENABLE.testBit i <;> cases v0.testBit i <;> cases l <;> simp

theorem reg_base_le (fdt : Fdt) (offs : Int) : _fdt_reg_base_address fdt offs ≤ PADDR_UNSET := by
  unfold _fdt_reg_base_address
  split
  · exact Nat.le_refl _
  · split
    · rename_i n _
      have : u32 n.reg < 2 ^ 32 := Nat.mod_lt _ (by norm_num)
      unfold PADDR_UNSET
      omega
    · exact Nat.le_refl _

theorem dt_find_loop_cons (fdt : Fdt) (c : String) (rest : List String) (a : Nat) :
    dt_find_loop fdt (c :: rest) a =
      if fdt_node_offset_by_compatible fdt 0 c < 0 then .error .node_not_found
      else if node_addr fdt c = 0 then .error .no_reg_property
      else if node_addr fdt c % 4096 ≠ 0 then .error .not_4k_aligned
      else dt_find_loop fdt rest
        (if node_addr fdt c < a ∨ a = PADDR_UNSET then node_addr fdt c else a) := by
  simp only [dt_find_loop, node_addr, and_fff]

theorem dt_find_loop_ok (fdt : Fdt) (tzm : List String) :
    ∀ (a r : Nat), a ≤ PADDR_UNSET → dt_find_loop fdt tzm a = .ok r →
      r ≤ a ∧ (∀ c ∈ tzm, node_ok fdt c ∧ r ≤ node_addr fdt c) ∧
        (r = a ∨ ∃ c ∈ tzm, r = node_addr fdt c) := by
  induction tzm with
  | nil =>
    intro a r _ h
    simp only [dt_find_loop, Except.ok.injEq] at h
    subst h
    simp
  | cons c rest ih =>
    intro a r ha h
    rw [dt_find_loop_cons] at h
    split at h
    · cases h
    · split at h
      · cases h
      · split at h
        · cases h
        · rename_i h1 h2 h3
          have hle := reg_base_le fdt (fdt_node_offset_by_compatible fdt 0 c)
          have hle2 : node_addr fdt c ≤ PADDR_UNSET := hle
          have hal : node_addr fdt c % 4096 = 0 := by simpa using h3
          have hok : node_ok fdt c := ⟨by omega, h2, hal⟩
          have hacc : (if node_addr fdt c < a ∨ a = PADDR_UNSET then node_addr fdt c else a)
              ≤ PADDR_UNSET := by
            split <;> assumption
          obtain ⟨r1, r2, r3⟩ := ih _ r hacc h
          have hmin : (if node_addr fdt c < a ∨ a = PADDR_UNSET then node_addr fdt c else a)
              ≤ node_addr fdt c ∧
              (if node_addr fdt c < a ∨ a = PADDR_UNSET then node_addr fdt c else a) ≤ a := by
            split
            · rename_i hc
              refine ⟨Nat.le_refl _, ?_⟩
              rcases hc with hc | hc
              · omega
              · omega
            · rename_i hc
              push_neg at hc
              exact ⟨hc.1, Nat.le_refl _⟩
          refine ⟨by omega, ?_, ?_⟩
          · intro d hd
            rcases List.mem_cons.mp hd with hd | hd
            · subst hd
              exact ⟨hok, by omega⟩
            · exact r2 d hd
          · rcases r3 with r3 | ⟨d, hd, r3⟩
            · by_cases hc : node_addr fdt c < a ∨ a = PADDR_UNSET
              · rw [if_pos hc] at r3
                exact Or.inr ⟨c, List.mem_cons_self _ _, r3⟩
              · rw [if_neg hc] at r3
                exact Or.inl r3
            · exact Or.inr ⟨d, List.mem_cons_of_mem _ hd, r3⟩

theorem dt_find_loop_total (fdt : Fdt) (tzm : List String) :
    ∀ (a : Nat), (∀ c ∈ tzm, node_ok fdt c) → ∃ r, dt_find_loop fdt tzm a = .ok r := by
  induction tzm with
  | nil => intro a _; exact ⟨a, rfl⟩
  | cons c rest ih =>
    intro a h
    obtain ⟨h1, h2, h3⟩ := h c (List.mem_cons_self _ _)
    rw [dt_find_loop_cons, if_neg (by omega), if_neg h2, if_neg (by simpa using h3)]
    exact ih _ (fun d hd => h d (List.mem_cons_of_mem _ hd))

theorem dt_find_loop_aligned (fdt : Fdt) (tzm : List String) (r : Nat) (hne : tzm ≠ [])
    (h : dt_find_loop fdt tzm PADDR_UNSET = .ok r) :
    r ≠ PADDR_UNSET ∧ r % 4096 = 0 ∧ (∃ c ∈ tzm, r = node_addr fdt c) := by
  obtain ⟨_, r2, r3⟩ := dt_find_loop_ok fdt tzm PADDR_UNSET r (Nat.le_refl _) h
  have key : ∃ c ∈ tzm, r = node_addr fdt c := by
    rcases r3 with r3 | r3
    · cases tzm with
      | nil => exact absurd rfl hne
      | cons c rest =>
        obtain ⟨⟨_, _, hal⟩, hle⟩ := r2 c (List.mem_cons_self _ _)
        have hu : PADDR_UNSET = 4294967295 := rfl
        have hb : node_addr fdt c ≤ PADDR_UNSET := reg_base_le fdt _
        exfalso
        omega
    · exact r3
  obtain ⟨c, hc, rfl⟩ := key
  obtain ⟨⟨_, _, hal⟩, _⟩ := r2 c hc
  have hu : PADDR_UNSET = 4294967295 := rfl
  refine ⟨by omega, hal, c, hc, rfl⟩

theorem dt_find_loop_site (fdt : Fdt) (tzm : List String) :
    ∀ (a : Nat), dt_find_loop fdt tzm a ≠ .error .gpr_locked := by
  induction tzm with
  | nil => intro a h; simp [dt_find_loop] at h
  | cons c rest ih =>
    intro a h
    rw [dt_find_loop_cons] at h
    split at h
    · cases h
    · split at h
      · cases h
      · split at h
        · cases h
        · exact ih _ h

theorem dt_find_some (tzm : List String) (s : State) (fdt : Fdt) (hdt : s.dt = some fdt) :
    dt_find_ocram_tz_addr tzm s =
      match dt_find_loop fdt tzm PADDR_UNSET with
      | .error site => .panic site s
      | .ok start_addr => .ok () { s with ocram_tz_start_addr := start_addr } := by
  simp only [dt_find_ocram_tz_addr, hdt]

theorem getter_of_set (P : Platform) (s : State) (h : s.ocram_tz_start_addr ≠ PADDR_UNSET) :
    imx_get_ocram_tz_start_addr P s = s.ocram_tz_start_addr := by
  simp only [imx_get_ocram_tz_start_addr, if_pos h]

/-- C3 as stated fails: in a description with two nodes carrying the same
identifier, at 0x00910000 and then at 0x1001, the second node is matched by
the list and reports a base address that is not a multiple of 4096, yet the
Locator does not panic: it returns with the boundary 0x00910000. -/
theorem locator_alignment_counterexample :
    ({ compatible := ["fsl,optee-lpm-sram"], reg := 0x1001 } : DtNode)
        ∈ matched_nodes (fdt_two 0x00910000 0x1001) tz_ocram_match ∧
    (0x1001 : Nat) % 4096 ≠ 0 ∧
    dt_find_ocram_tz_addr tz_ocram_match (State.boot (some (fdt_two 0x00910000 0x1001)))
      = .ok () { State.boot (some (fdt_two 0x00910000 0x1001)) with
                 ocram_tz_start_addr := 0x00910000 } ∧
    ¬ ∃ site s1, dt_find_ocram_tz_addr tz_ocram_match
        (State.boot (some (fdt_two 0x00910000 0x1001))) = .panic site s1 := by
  refine ⟨by decide, by decide, by decide, ?_⟩
  rintro ⟨site, s1, h⟩
  have hok : dt_find_ocram_tz_addr tz_ocram_match
      (State.boot (some (fdt_two 0x00910000 0x1001)))
      = .ok () { State.boot (some (fdt_two 0x00910000 0x1001)) with
                 ocram_tz_start_addr := 0x00910000 } := by decide
  rw [hok] at h
  cases h

/-- C3 amended: with a non-empty match list, a boundary the Locator produces
is a multiple of 4096, and if the first node after the root that carries
some identifier of the list, the one node the lookup returns for it, reports
a base address that is not a multiple of 4096, the Locator panics and
produces no boundary. -/
theorem locator_alignment (P : Platform) (fdt : Fdt) (tzm : List String) (s : State)
    (hne : tzm ≠ []) (hdt : s.dt = some fdt) :
    (∀ s1, dt_find_ocram_tz_addr tzm s = .ok () s1 →
        imx_get_ocram_tz_start_addr P s1 % 4096 = 0) ∧
    (∀ c ∈ tzm, 0 ≤ fdt_node_offset_by_compatible fdt 0 c →
        node_addr fdt c % 4096 ≠ 0 →
        ∃ site, dt_find_ocram_tz_addr tzm s = .panic site s) := by
  constructor
  · intro s1 h
    rw [dt_find_some tzm s fdt hdt] at h
    cases hl : dt_find_loop fdt tzm PADDR_UNSET with
    | error site => rw [hl] at h; cases h
    | ok r =>
      rw [hl] at h
      simp only [Outcome.ok.injEq, true_and] at h
      subst h
      obtain ⟨h1, h2, _⟩ := dt_find_loop_aligned fdt tzm r hne hl
      rw [getter_of_set P _ h1]
      exact h2
  · intro c hc _ hmis
    rw [dt_find_some tzm s fdt hdt]
    cases hl : dt_find_loop fdt tzm PADDR_UNSET with
    | error site => exact ⟨site, rfl⟩
    | ok r =>
      obtain ⟨_, h2, _⟩ := dt_find_loop_ok fdt tzm PADDR_UNSET r (Nat.le_refl _) hl
      exact absurd (h2 c hc).1.2.2 hmis

/-- C3 amended at a concrete description: a run on a node at 0x180000 gives
an aligned boundary, and a first node reporting 0x1001 makes the Locator
panic. -/
theorem locator_alignment_witness :
    imx_get_ocram_tz_start_addr imx7
        { State.boot (some (fdt_one 0x180000)) with ocram_tz_start_addr := 0x180000 }
          % 4096 = 0 ∧
      ∃ site, dt_find_ocram_tz_addr tz_ocram_match (State.boot (some (fdt_one 0x1001)))
        = .panic site (State.boot (some (fdt_one 0x1001))) :=
  ⟨(locator_alignment imx7 (fdt_one 0x180000) tz_ocram_match
      (State.boot (some (fdt_one 0x180000))) (by decide) rfl).1 _ (by decide),
   (locator_alignment imx7 (fdt_one 0x1001) tz_ocram_match
      (State.boot (some (fdt_one 0x1001))) (by decide) rfl).2
      "fsl,optee-lpm-sram" (by decide) (by decide) (by decide)⟩

/-- C4 as stated fails: with two nodes carrying the same identifier, at
0x00910000 and then at 0x00900000, the boundary is 0x00910000 and not
0x00900000; and a present, 4096-aligned node at address 0 makes the Locator
panic instead of giving a boundary. -/
theorem locator_minimum_counterexample :
    (dt_find_ocram_tz_addr tz_ocram_match (State.boot (some (fdt_two 0x00910000 0x00900000)))
        = .ok () { State.boot (some (fdt_two 0x00910000 0x00900000)) with
                   ocram_tz_start_addr := 0x00910000 } ∧
      imx_get_ocram_tz_start_addr imx7
        (dt_find_ocram_tz_addr tz_ocram_match
          (State.boot (some (fdt_two 0x00910000 0x00900000)))).state ≠ 0x00900000) ∧
    dt_find_ocram_tz_addr tz_ocram_match (State.boot (some (fdt_one 0)))
        = .panic .no_reg_property (State.boot (some (fdt_one 0))) := by
  decide

/-- C4 amended: when, for every identifier of a non-empty match list, the
first node after the root that carries it is present and reports a non-zero
base address that is a multiple of 4096, the Locator returns and the
boundary is the minimum of these base addresses, one per identifier; further
nodes carrying the same identifier are not read. -/
theorem locator_minimum_first_match (P : Platform) (fdt : Fdt) (tzm : List String)
    (s : State) (hne : tzm ≠ []) (hdt : s.dt = some fdt)
    (hok : ∀ c ∈ tzm, 0 ≤ fdt_node_offset_by_compatible fdt 0 c ∧
        node_addr fdt c ≠ 0 ∧ node_addr fdt c % 4096 = 0) :
    ∃ m, dt_find_ocram_tz_addr tzm s = .ok () { s with ocram_tz_start_addr := m } ∧
      imx_get_ocram_tz_start_addr P { s with ocram_tz_start_addr := m } = m ∧
      (∃ c ∈ tzm, m = node_addr fdt c) ∧ ∀ c ∈ tzm, m ≤ node_addr fdt c := by
  obtain ⟨r, hr⟩ := dt_find_loop_total fdt tzm PADDR_UNSET hok
  obtain ⟨h1, _, h3⟩ := dt_find_loop_aligned fdt tzm r hne hr
  obtain ⟨_, h5, _⟩ := dt_find_loop_ok fdt tzm PADDR_UNSET r (Nat.le_refl _) hr
  refine ⟨r, ?_, getter_of_set P _ h1, h3, fun c hc => (h5 c hc).2⟩
  rw [dt_find_some tzm s fdt hdt, hr]

/-- C4 amended, at the description of the claim: the first node, at
0x00910000, decides. -/
theorem locator_minimum_first_match_witness :
    ∃ m, dt_find_ocram_tz_addr tz_ocram_match
          (State.boot (some (fdt_two 0x00910000 0x00900000)))
        = .ok () { State.boot (some (fdt_two 0x00910000 0x00900000)) with
                   ocram_tz_start_addr := m } ∧
      imx_get_ocram_tz_start_addr imx7
        { State.boot (some (fdt_two 0x00910000 0x00900000)) with
          ocram_tz_start_addr := m } = m ∧
      (∃ c ∈ tz_ocram_match, m = node_addr (fdt_two 0x00910000 0x00900000) c) ∧
      ∀ c ∈ tz_ocram_match, m ≤ node_addr (fdt_two 0x00910000 0x00900000) c :=
  locator_minimum_first_match imx7 (fdt_two 0x00910000 0x00900000) tz_ocram_match
    (State.boot (some (fdt_two 0x00910000 0x00900000))) (by decide) rfl (by decide)

/-- C5: before the Locator has run the getter returns TRUSTZONE_OCRAM_START,
and with an empty match list the Locator returns, for every hardware
description and from every state, and the getter then returns
TRUSTZONE_OCRAM_START. -/
theorem locator_default (P : Platform) (dt : Option Fdt) (fdt : Fdt) (s : State) :
    imx_get_ocram_tz_start_addr P (State.boot dt) = P.TRUSTZONE_OCRAM_START ∧
    ∃ s1, dt_find_ocram_tz_addr [] { s with dt := some fdt } = .ok () s1 ∧
      imx_get_ocram_tz_start_addr P s1 = P.TRUSTZONE_OCRAM_START := by
  refine ⟨by simp [imx_get_ocram_tz_start_addr, State.boot], ?_⟩
  refine ⟨{ s with dt := some fdt, ocram_tz_start_addr := PADDR_UNSET }, ?_, ?_⟩
  · simp [dt_find_ocram_tz_addr, dt_find_loop]
  · simp [imx_get_ocram_tz_start_addr]

theorem dt_find_none (tzm : List String) (s : State) (hdt : s.dt = none) :
    dt_find_ocram_tz_addr tzm s = .panic .no_dtb s := by
  simp only [dt_find_ocram_tz_addr, hdt]

theorem dt_find_cases (tzm : List String) (s : State) :
    (∃ site, dt_find_ocram_tz_addr tzm s = .panic site s ∧ site ≠ .gpr_locked) ∨
    (∃ r, dt_find_ocram_tz_addr tzm s = .ok () { s with ocram_tz_start_addr := r } ∧
      (r = PADDR_UNSET ∨ r % 4096 = 0)) := by
  rcases Option.eq_none_or_eq_some s.dt with hdt | ⟨fdt, hdt⟩
  · exact Or.inl ⟨_, dt_find_none tzm s hdt, by decide⟩
  · rw [dt_find_some tzm s fdt hdt]
    cases hl : dt_find_loop fdt tzm PADDR_UNSET with
    | error site =>
      refine Or.inl ⟨site, rfl, ?_⟩
      intro hsite
      subst hsite
      exact dt_find_loop_site fdt tzm PADDR_UNSET hl
    | ok r =>
      refine Or.inr ⟨r, rfl, ?_⟩
      obtain ⟨_, h2, h3⟩ := dt_find_loop_ok fdt tzm PADDR_UNSET r (Nat.le_refl _) hl
      rcases h3 with h3 | ⟨c, hc, h3⟩
      · exact Or.inl h3
      · rw [h3]
        exact Or.inr (h2 c hc).1.2.2

/-- C1: when the lock bits of the protected mask are distinct from the
protected bits themselves, a register whose initial value has one of these
lock bits set makes init_tz_ocram panic with no effect recorded (zero
register writes), at the pre-lock check whenever the Locator returned; and
a register with none of them set never panics at the pre-lock check. -/
theorem init_tz_ocram_prelock_check (P : Platform) (E : Env) (tzm : List String)
    (s : State)
    (hsep : P.IOMUX_GPR_OCRAM_LOCK (tz_lock P) &&& tz_lock P = 0) :
    (P.IOMUX_GPR_OCRAM_LOCK (tz_lock P)
        &&& u32 (E.io_read32 s.trace (ocram_gpr_addr P E)) ≠ 0 →
      ∃ site s1, init_tz_ocram P E tzm s = .panic site s1 ∧ s1.trace = s.trace ∧
        reg_writes s1.trace = reg_writes s.trace ∧
        (∀ s0, dt_find_ocram_tz_addr tzm s = .ok () s0 → site = .gpr_locked)) ∧
    (P.IOMUX_GPR_OCRAM_LOCK (tz_lock P)
        &&& u32 (E.io_read32 s.trace (ocram_gpr_addr P E)) = 0 →
      ∀ s1, init_tz_ocram P E tzm s ≠ .panic .gpr_locked s1) := by
  rcases dt_find_cases tzm s with ⟨site, hp, hsite⟩ | ⟨r, hr, _⟩
  · constructor
    · intro _
      refine ⟨site, s, ?_, rfl, rfl, ?_⟩
      · simp only [init_tz_ocram, hp]
      · intro s0 h0
        rw [hp] at h0
        cases h0
    · intro h0 s1 hcontra
      simp only [init_tz_ocram, hp, Outcome.panic.injEq] at hcontra
      exact hsite hcontra.1
  · constructor
    · intro hlk
      refine ⟨.gpr_locked, { s with ocram_tz_start_addr := r }, ?_, rfl, rfl, fun _ _ => rfl⟩
      simp only [init_tz_ocram, hr]
      rw [tz_val_and_lockbits P _ _ hsep, if_pos hlk]
    · intro hlk s1 hcontra
      simp only [init_tz_ocram, hr] at hcontra
      rw [tz_val_and_lockbits P _ _ hsep] at hcontra
      simp only [hlk, ne_eq, not_true_eq_false, if_false] at hcontra
      split at hcontra <;> cases hcontra

/-- C1 at concrete registers on the sample platform: an initial value with
the lock bit of the enable bit set panics with an empty trace, and a cleared
register does not panic at the pre-lock check. -/
theorem init_tz_ocram_prelock_check_witness :
    (∃ site s1, init_tz_ocram imx7 (plain_env 0x04000000) tz_ocram_match
          (State.boot (some (fdt_one 0x180000))) = .panic site s1 ∧
        s1.trace = (State.boot (some (fdt_one 0x180000))).trace ∧
        reg_writes s1.trace = reg_writes (State.boot (some (fdt_one 0x180000))).trace ∧
        (∀ s0, dt_find_ocram_tz_addr tz_ocram_match
            (State.boot (some (fdt_one 0x180000))) = .ok () s0 → site = .gpr_locked)) ∧
    (∀ s1, init_tz_ocram imx7 (plain_env 0) tz_ocram_match
          (State.boot (some (fdt_one 0x180000))) ≠ .panic .gpr_locked s1) :=
  ⟨(init_tz_ocram_prelock_check imx7 (plain_env 0x04000000) tz_ocram_match
      (State.boot (some (fdt_one 0x180000))) (by decide)).1 (by decide),
   (init_tz_ocram_prelock_check imx7 (plain_env 0) tz_ocram_match
      (State.boot (some (fdt_one 0x180000))) (by decide)).2 (by decide)⟩

/-- C2: when init_tz_ocram returns, the value read back from the register
agrees on the protected mask with the intended value, whose address field
is ((boundary >> 12) << BP) & BM and whose enable bit is set; and once the
Locator has returned and the pre-lock check has passed, a read-back value
that differs from it on the protected mask makes init_tz_ocram panic. -/
theorem init_tz_ocram_readback (P : Platform) (E : Env) (tzm : List String) (s : State) :
    (∀ s1, init_tz_ocram P E tzm s = .ok () s1 →
      u32 (E.io_read32 s1.trace (ocram_gpr_addr P E)) &&& tz_lock P
        = u32 ((((imx_get_ocram_tz_start_addr P s1 >>> 12)
                    <<< P.BP_IOMUX_GPR_OCRAM_S_TZ_ADDR)
                  &&& P.BM_IOMUX_GPR_OCRAM_S_TZ_ADDR)
                ||| P.IOMUX_GPR_OCRAM_S_TZ_ENABLE)) ∧
    (∀ s0, dt_find_ocram_tz_addr tzm s = .ok () s0 →
      P.IOMUX_GPR_OCRAM_LOCK (tz_lock P)
        &&& tz_val P (E.io_read32 s0.trace (ocram_gpr_addr P E))
              (imx_get_ocram_tz_start_addr P s0) = 0 →
      u32 (E.io_read32 (after_lock_writes P E s0).trace (ocram_gpr_addr P E)) &&& tz_lock P
        ≠ u32 ((((imx_get_ocram_tz_start_addr P s0 >>> 12)
                    <<< P.BP_IOMUX_GPR_OCRAM_S_TZ_ADDR)
                  &&& P.BM_IOMUX_GPR_OCRAM_S_TZ_ADDR)
                ||| P.IOMUX_GPR_OCRAM_S_TZ_ENABLE) →
      init_tz_ocram P E tzm s = .panic .lock_mismatch (after_lock_writes P E s0)) := by
  constructor
  · intro s1 h
    rcases dt_find_cases tzm s with ⟨site, hp, _⟩ | ⟨r, hr, _⟩
    · simp only [init_tz_ocram, hp] at h
      cases h
    · simp only [init_tz_ocram, hr] at h
      split at h
      · cases h
      · split at h
        · cases h
        · rename_i hrb
          simp only [Outcome.ok.injEq, true_and] at h
          subst h
          simp only [ne_eq, not_not] at hrb
          rw [hrb, tz_val_and_lock]
          rfl
  · intro s0 h0 hpass hdiff
    simp only [init_tz_ocram, h0]
    rw [if_neg (by simpa using hpass)]
    rw [if_pos]
    · rfl
    · rw [tz_val_and_lock]
      exact hdiff

/-- C2 at concrete registers on the sample platform: with a register that
keeps what is written the run returns and the read-back agrees with the
intended value; a register stuck at zero gives a lock-mismatch panic. -/
theorem init_tz_ocram_readback_witness :
    u32 ((plain_env 0).io_read32
          [.io_write32 0x3034002C 0x400, .io_write32 0x3034002C 0x3C000400]
          (ocram_gpr_addr imx7 (plain_env 0))) &&& tz_lock imx7
      = u32 ((((0x180000 >>> 12) <<< 11) &&& 0x3800) ||| 0x400) ∧
    init_tz_ocram imx7 (stuck_env 0) tz_ocram_match (State.boot (some (fdt_one 0x180000)))
      = .panic .lock_mismatch
          { iram_tlb_phys_addr := PADDR_UNSET, ocram_tz_start_addr := 0x180000,
            dt := some (fdt_one 0x180000),
            trace := [.io_write32 0x3034002C 0x400, .io_write32 0x3034002C 0x3C000400] } :=
  ⟨(init_tz_ocram_readback imx7 (plain_env 0) tz_ocram_match
      (State.boot (some (fdt_one 0x180000)))).1
      { iram_tlb_phys_addr := PADDR_UNSET, ocram_tz_start_addr := 0x180000,
        dt := some (fdt_one 0x180000),
        trace := [.io_write32 0x3034002C 0x400, .io_write32 0x3034002C 0x3C000400] }
      (by decide),
   (init_tz_ocram_readback imx7 (stuck_env 0) tz_ocram_match
      (State.boot (some (fdt_one 0x180000)))).2
      { State.boot (some (fdt_one 0x180000)) with ocram_tz_start_addr := 0x180000 }
      (by decide) (by decide) (by decide)⟩

theorem mapped_regions_append (xs ys : List Event) :
    mapped_regions (xs ++ ys) = mapped_regions xs ++ mapped_regions ys := by
  induction xs with
  | nil => rfl
  | cons e rest ih => cases e <;> simp [mapped_regions, ih]

theorem mapped_regions_apertures (P : Platform) (E : Env) (sz v : Nat) (l : List Nat) :
    mapped_regions (l.map (aperture_event P E sz v)) = l.map (aperture_map P E sz) := by
  induction l with
  | nil => rfl
  | cons pa rest ih => simp [mapped_regions, aperture_event, ih]

theorem aperture_loop_state (P : Platform) (E : Env) (sz v : Nat) (tbl : List Nat) :
    ∀ s : State, ∃ n,
      (aperture_loop P E sz v tbl s).state =
        { s with trace := s.trace ++ (tbl.take n).map (aperture_event P E sz v) } := by
  induction tbl with
  | nil => intro s; exact ⟨0, by simp [aperture_loop, Outcome.state]⟩
  | cons pa rest ih =>
    intro s
    cases rest with
    | nil => exact ⟨1, by simp [aperture_loop, Outcome.state, State.emit, aperture_event]⟩
    | cons nxt rest2 =>
      by_cases hn : nxt ≠ 0
      · obtain ⟨n, hn2⟩ := ih (s.emit (aperture_event P E sz v pa))
        refine ⟨n + 1, ?_⟩
        rw [aperture_loop, if_pos hn]
        rw [aperture_event] at hn2
        rw [hn2]
        simp [State.emit, aperture_event]
      · exact ⟨1, by simp [aperture_loop, Outcome.state, State.emit, aperture_event, hn]⟩

theorem aperture_loop_terminated (P : Platform) (E : Env) (sz v : Nat) (entries : List Nat) :
    ∀ s : State, entries ≠ [] → (∀ pa ∈ entries, pa ≠ 0) →
      aperture_loop P E sz v (entries ++ [0]) s =
        .ok () { s with trace := s.trace ++ entries.map (aperture_event P E sz v) } := by
  induction entries with
  | nil => intro s h; exact absurd rfl h
  | cons pa rest ih =>
    intro s _ hnz
    cases rest with
    | nil => simp [aperture_loop, State.emit, aperture_event]
    | cons nxt rest2 =>
      have hn : nxt ≠ 0 := hnz nxt (by simp)
      have hrec := ih (s.emit (aperture_event P E sz v pa)) (by simp)
        (fun x hx => hnz x (List.mem_cons_of_mem _ hx))
      rw [List.cons_append, List.cons_append, aperture_loop, if_pos hn]
      rw [aperture_event, List.cons_append] at hrec
      rw [hrec]
      simp [State.emit, aperture_event]

theorem mapping_builder_ok_form (P : Platform) (E : Env) (sz v : Nat) (tbl : List Nat)
    (s s1 : State) (h : mapping_builder P E sz v tbl s = .ok () s1) :
    ∃ n, s1 = { s with trace := s.trace ++ (tbl.take n).map (aperture_event P E sz v)
                  ++ [.map_memarea_sections (iram_s_map P E) v,
                      .map_memarea_sections (gic_map P E) v] } := by
  obtain ⟨n, hn⟩ := aperture_loop_state P E sz v tbl s
  refine ⟨n, ?_⟩
  unfold mapping_builder at h
  cases hl : aperture_loop P E sz v tbl s with
  | panic site s2 => rw [hl] at h; cases h
  | undefined s2 => rw [hl] at h; cases h
  | ok u s2 =>
    rw [hl] at h
    rw [hl] at hn
    simp only [Outcome.state] at hn
    simp only [Outcome.ok.injEq, true_and] at h
    rw [← h, hn]
    simp [State.emit]

theorem has_flags_or_right (a f : Nat) : has_flags (a ||| f) f := by
  apply Nat.eq_of_testBit_eq
  intro i
  simp only [Nat.testBit_and, Nat.testBit_or]
  cases a.testBit i <;> cases f.testBit i <;> rfl

theorem has_flags_or_left (a b f : Nat) (h : has_flags a f) : has_flags (a ||| b) f := by
  apply Nat.eq_of_testBit_eq
  intro i
  have hi := congrArg (fun n => Nat.testBit n i) h
  simp only [Nat.testBit_and] at hi
  simp only [Nat.testBit_and, Nat.testBit_or]
  revert hi
  cases a.testBit i <;> cases f.testBit i <;> cases b.testBit i <;> simp

theorem has_flags_self (f : Nat) : has_flags f f := Nat.and_self f

theorem lacks_flags_or (a b f : Nat) (ha : lacks_flags a f) (hb : lacks_flags b f) :
    lacks_flags (a ||| b) f := by
  apply Nat.eq_of_testBit_eq
  intro i
  have h1 := congrArg (fun n => Nat.testBit n i) ha
  have h2 := congrArg (fun n => Nat.testBit n i) hb
  simp only [Nat.testBit_and, Nat.zero_testBit] at h1 h2
  simp only [Nat.testBit_and, Nat.testBit_or, Nat.zero_testBit]
  revert h1 h2
  cases a.testBit i <;> cases f.testBit i <;> cases b.testBit i <;> simp

theorem lacks_flags_comm (a f : Nat) (h : f &&& a = 0) : lacks_flags a f := by
  unfold lacks_flags
  rw [Nat.land_comm]
  exact h

theorem aperture_map_mem_type (P : Platform) (E : Env) (sz pa : Nat)
    (hfV : P.TEE_MATTR_VALID_BLOCK
      &&& (P.TEE_MATTR_MEM_TYPE_MASK <<< P.TEE_MATTR_MEM_TYPE_SHIFT) = 0)
    (hfRW : P.TEE_MATTR_PRW
      &&& (P.TEE_MATTR_MEM_TYPE_MASK <<< P.TEE_MATTR_MEM_TYPE_SHIFT) = 0)
    (hfG : P.TEE_MATTR_GLOBAL
      &&& (P.TEE_MATTR_MEM_TYPE_MASK <<< P.TEE_MATTR_MEM_TYPE_SHIFT) = 0)
    (hfS : P.TEE_MATTR_SECURE
      &&& (P.TEE_MATTR_MEM_TYPE_MASK <<< P.TEE_MATTR_MEM_TYPE_SHIFT) = 0)
    (hdev : P.TEE_MATTR_MEM_TYPE_DEV &&& P.TEE_MATTR_MEM_TYPE_MASK
      = P.TEE_MATTR_MEM_TYPE_DEV) :
    mem_type P (aperture_map P E sz pa).attr = P.TEE_MATTR_MEM_TYPE_DEV := by
  apply Nat.eq_of_testBit_eq
  intro i
  have h1 := congrArg (fun n => Nat.testBit n (P.TEE_MATTR_MEM_TYPE_SHIFT + i)) hfV
  have h2 := congrArg (fun n => Nat.testBit n (P.TEE_MATTR_MEM_TYPE_SHIFT + i)) hfRW
  have h3 := congrArg (fun n => Nat.testBit n (P.TEE_MATTR_MEM_TYPE_SHIFT + i)) hfG
  have h4 := congrArg (fun n => Nat.testBit n (P.TEE_MATTR_MEM_TYPE_SHIFT + i)) hfS
  have h5 := congrArg (fun n => Nat.testBit n i) hdev
  simp only [Nat.testBit_and, Nat.testBit_shiftLeft, Nat.zero_testBit, ge_iff_le,
    Nat.le_add_right, decide_True, Bool.true_and, Nat.add_sub_cancel_left] at h1 h2 h3 h4 h5
  simp only [mem_type, aperture_map, Nat.testBit_and, Nat.testBit_or, Nat.testBit_shiftRight,
    Nat.testBit_shiftLeft, ge_iff_le, Nat.le_add_right, decide_True, Bool.true_and,
    Nat.add_sub_cancel_left]
  revert h1 h2 h3 h4 h5
  cases P.TEE_MATTR_VALID_BLOCK.testBit (P.TEE_MATTR_MEM_TYPE_SHIFT + i) <;>
    cases P.TEE_MATTR_PRW.testBit (P.TEE_MATTR_MEM_TYPE_SHIFT + i) <;>
    cases P.TEE_MATTR_GLOBAL.testBit (P.TEE_MATTR_MEM_TYPE_SHIFT + i) <;>
    cases P.TEE_MATTR_SECURE.testBit (P.TEE_MATTR_MEM_TYPE_SHIFT + i) <;>
    cases P.TEE_MATTR_MEM_TYPE_DEV.testBit i <;>
    cases P.TEE_MATTR_MEM_TYPE_MASK.testBit i <;> simp

theorem aperture_map_attr (P : Platform) (E : Env) (sz pa : Nat)
    (hV : P.TEE_MATTR_PX &&& P.TEE_MATTR_VALID_BLOCK = 0)
    (hRW : P.TEE_MATTR_PX &&& P.TEE_MATTR_PRW = 0)
    (hG : P.TEE_MATTR_PX &&& P.TEE_MATTR_GLOBAL = 0)
    (hS : P.TEE_MATTR_PX &&& P.TEE_MATTR_SECURE = 0)
    (hD : P.TEE_MATTR_PX &&& (P.TEE_MATTR_MEM_TYPE_DEV <<< P.TEE_MATTR_MEM_TYPE_SHIFT) = 0)
    (hfV : P.TEE_MATTR_VALID_BLOCK
      &&& (P.TEE_MATTR_MEM_TYPE_MASK <<< P.TEE_MATTR_MEM_TYPE_SHIFT) = 0)
    (hfRW : P.TEE_MATTR_PRW
      &&& (P.TEE_MATTR_MEM_TYPE_MASK <<< P.TEE_MATTR_MEM_TYPE_SHIFT) = 0)
    (hfG : P.TEE_MATTR_GLOBAL
      &&& (P.TEE_MATTR_MEM_TYPE_MASK <<< P.TEE_MATTR_MEM_TYPE_SHIFT) = 0)
    (hfS : P.TEE_MATTR_SECURE
      &&& (P.TEE_MATTR_MEM_TYPE_MASK <<< P.TEE_MATTR_MEM_TYPE_SHIFT) = 0)
    (hdev : P.TEE_MATTR_MEM_TYPE_DEV &&& P.TEE_MATTR_MEM_TYPE_MASK
      = P.TEE_MATTR_MEM_TYPE_DEV) :
    aperture_region_pattern P (aperture_map P E sz pa) := by
  refine ⟨rfl, aperture_map_mem_type P E sz pa hfV hfRW hfG hfS hdev,
    has_flags_or_right _ _, ?_, ?_, ?_, ?_, ?_⟩
  · exact has_flags_or_left _ _ _ (has_flags_or_left _ _ _ (has_flags_or_left _ _ _
      (has_flags_or_left _ _ _ (has_flags_self _))))
  · exact has_flags_or_left _ _ _ (has_flags_or_left _ _ _ (has_flags_or_left _ _ _
      (has_flags_or_right _ _)))
  · exact has_flags_or_left _ _ _ (has_flags_or_left _ _ _ (has_flags_or_right _ _))
  · exact has_flags_or_left _ _ _ (has_flags_or_right _ _)
  · exact lacks_flags_or _ _ _ (lacks_flags_or _ _ _ (lacks_flags_or _ _ _
      (lacks_flags_or _ _ _ (lacks_flags_comm _ _ hV) (lacks_flags_comm _ _ hRW))
      (lacks_flags_comm _ _ hG)) (lacks_flags_comm _ _ hS)) (lacks_flags_comm _ _ hD)

theorem extra_attr (P : Platform) :
    has_flags (P.TEE_MATTR_VALID_BLOCK ||| P.TEE_MATTR_PRW ||| P.TEE_MATTR_GLOBAL
        ||| P.TEE_MATTR_SECURE ||| P.TEE_MATTR_PX) P.TEE_MATTR_VALID_BLOCK ∧
    has_flags (P.TEE_MATTR_VALID_BLOCK ||| P.TEE_MATTR_PRW ||| P.TEE_MATTR_GLOBAL
        ||| P.TEE_MATTR_SECURE ||| P.TEE_MATTR_PX) P.TEE_MATTR_PRW ∧
    has_flags (P.TEE_MATTR_VALID_BLOCK ||| P.TEE_MATTR_PRW ||| P.TEE_MATTR_GLOBAL
        ||| P.TEE_MATTR_SECURE ||| P.TEE_MATTR_PX) P.TEE_MATTR_GLOBAL ∧
    has_flags (P.TEE_MATTR_VALID_BLOCK ||| P.TEE_MATTR_PRW ||| P.TEE_MATTR_GLOBAL
        ||| P.TEE_MATTR_SECURE ||| P.TEE_MATTR_PX) P.TEE_MATTR_SECURE ∧
    has_flags (P.TEE_MATTR_VALID_BLOCK ||| P.TEE_MATTR_PRW ||| P.TEE_MATTR_GLOBAL
        ||| P.TEE_MATTR_SECURE ||| P.TEE_MATTR_PX) P.TEE_MATTR_PX := by
  refine ⟨?_, ?_, ?_, ?_, has_flags_or_right _ _⟩
  · exact has_flags_or_left _ _ _ (has_flags_or_left _ _ _ (has_flags_or_left _ _ _
      (has_flags_or_left _ _ _ (has_flags_self _))))
  · exact has_flags_or_left _ _ _ (has_flags_or_left _ _ _ (has_flags_or_left _ _ _
      (has_flags_or_right _ _)))
  · exact has_flags_or_left _ _ _ (has_flags_or_left _ _ _ (has_flags_or_right _ _))
  · exact has_flags_or_left _ _ _ (has_flags_or_right _ _)

theorem mapping_builder_regions (P : Platform) (E : Env) (sz v : Nat) (tbl : List Nat)
    (s s1 : State) (h : mapping_builder P E sz v tbl s = .ok () s1) :
    ∃ n, mapped_regions s1.trace = mapped_regions s.trace
        ++ (tbl.take n).map (aperture_map P E sz) ++ [iram_s_map P E, gic_map P E] := by
  obtain ⟨n, hn⟩ := mapping_builder_ok_form P E sz v tbl s s1 h
  refine ⟨n, ?_⟩
  rw [hn]
  simp only [mapped_regions_append, mapped_regions_apertures]
  rfl

/-- C8: when the execute flag TEE_MATTR_PX is a bit distinct from the other
attribute flags and from the memory-type field, the four flags lie outside
the memory-type field and the device type fits the field mask, every region
the Mapping Builder emits for an aperture-table entry has area type
MEM_AREA_IO_SEC, its memory-type field equal to TEE_MATTR_MEM_TYPE_DEV, the
valid, read-write, global and secure flags set and TEE_MATTR_PX clear; and
each of the two extra regions that follow has area type
MEM_AREA_TEE_COHERENT and the valid, read-write, global, secure and execute
flags set. -/
theorem mapping_builder_attributes (P : Platform) (E : Env) (sz v : Nat)
    (tbl : List Nat) (s s1 : State)
    (hV : P.TEE_MATTR_PX &&& P.TEE_MATTR_VALID_BLOCK = 0)
    (hRW : P.TEE_MATTR_PX &&& P.TEE_MATTR_PRW = 0)
    (hG : P.TEE_MATTR_PX &&& P.TEE_MATTR_GLOBAL = 0)
    (hS : P.TEE_MATTR_PX &&& P.TEE_MATTR_SECURE = 0)
    (hD : P.TEE_MATTR_PX &&& (P.TEE_MATTR_MEM_TYPE_DEV <<< P.TEE_MATTR_MEM_TYPE_SHIFT) = 0)
    (hfV : P.TEE_MATTR_VALID_BLOCK
      &&& (P.TEE_MATTR_MEM_TYPE_MASK <<< P.TEE_MATTR_MEM_TYPE_SHIFT) = 0)
    (hfRW : P.TEE_MATTR_PRW
      &&& (P.TEE_MATTR_MEM_TYPE_MASK <<< P.TEE_MATTR_MEM_TYPE_SHIFT) = 0)
    (hfG : P.TEE_MATTR_GLOBAL
      &&& (P.TEE_MATTR_MEM_TYPE_MASK <<< P.TEE_MATTR_MEM_TYPE_SHIFT) = 0)
    (hfS : P.TEE_MATTR_SECURE
      &&& (P.TEE_MATTR_MEM_TYPE_MASK <<< P.TEE_MATTR_MEM_TYPE_SHIFT) = 0)
    (hdev : P.TEE_MATTR_MEM_TYPE_DEV &&& P.TEE_MATTR_MEM_TYPE_MASK
      = P.TEE_MATTR_MEM_TYPE_DEV)
    (h : mapping_builder P E sz v tbl s = .ok () s1) :
    ∃ (aps : List tee_mmap_region) (x1 x2 : tee_mmap_region),
      mapped_regions s1.trace = mapped_regions s.trace ++ aps ++ [x1, x2] ∧
      (∃ n, aps = (tbl.take n).map (aperture_map P E sz)) ∧
      (∀ r ∈ aps, aperture_region_pattern P r) ∧
      extra_region_pattern P x1 ∧ extra_region_pattern P x2 := by
  obtain ⟨n, hn⟩ := mapping_builder_regions P E sz v tbl s s1 h
  refine ⟨_, _, _, hn, ⟨n, rfl⟩, ?_, ⟨rfl, extra_attr P⟩, ⟨rfl, extra_attr P⟩⟩
  intro r hr
  obtain ⟨pa, _, rfl⟩ := List.mem_map.mp hr
  exact aperture_map_attr P E sz pa hV hRW hG hS hD hfV hfRW hfG hfS hdev

/-- C8 on the sample platform, for the table of the source. -/
theorem mapping_builder_attributes_witness :
    ∃ (aps : List tee_mmap_region) (x1 x2 : tee_mmap_region),
      mapped_regions (mapping_builder imx7 (plain_env 0) 0x400000 0x184000
          (phys_addr_imx7 imx7) (State.boot none)).state.trace
        = mapped_regions (State.boot none).trace ++ aps ++ [x1, x2] ∧
      (∃ n, aps = ((phys_addr_imx7 imx7).take n).map
          (aperture_map imx7 (plain_env 0) 0x400000)) ∧
      (∀ r ∈ aps, aperture_region_pattern imx7 r) ∧
      extra_region_pattern imx7 x1 ∧ extra_region_pattern imx7 x2 :=
  mapping_builder_attributes imx7 (plain_env 0) 0x400000 0x184000 (phys_addr_imx7 imx7)
    (State.boot none) _ (by decide) (by decide) (by decide) (by decide) (by decide)
    (by decide) (by decide) (by decide) (by decide) (by decide) (by decide)

theorem mapping_builder_terminated (P : Platform) (E : Env) (sz v : Nat)
    (entries : List Nat) (s : State) (hne : entries ≠ []) (hnz : ∀ pa ∈ entries, pa ≠ 0) :
    mapping_builder P E sz v (entries ++ [0]) s =
      .ok () { s with trace := s.trace ++ entries.map (aperture_event P E sz v)
                ++ [.map_memarea_sections (iram_s_map P E) v,
                    .map_memarea_sections (gic_map P E) v] } := by
  unfold mapping_builder
  rw [aperture_loop_terminated P E sz v entries s hne hnz]
  simp [State.emit]

/-- C7 as stated fails for N = 0: on the table that holds only the
terminator the loop body runs once, the terminator itself is handed to the
page-table writer as a region at physical address 0, and the next read is
past the end of the table; the run does not return with 0 + 2 regions. -/
theorem mapping_builder_count_counterexample :
    mapping_builder imx7 (plain_env 0) 0x400000 0x184000 ([] ++ [0]) (State.boot none)
      = .undefined { State.boot none with
          trace := [.map_memarea_sections
                      (aperture_map imx7 (plain_env 0) 0x400000 0) 0x184000] } ∧
    ¬ ∃ s1, mapping_builder imx7 (plain_env 0) 0x400000 0x184000 ([] ++ [0])
          (State.boot none) = .ok () s1 ∧
        (mapped_regions s1.trace).length
          = (mapped_regions (State.boot none).trace).length + (0 + 2) := by
  refine ⟨by decide, ?_⟩
  rintro ⟨s1, h, _⟩
  have hu : mapping_builder imx7 (plain_env 0) 0x400000 0x184000 ([] ++ [0])
      (State.boot none) = .undefined { State.boot none with
          trace := [.map_memarea_sections
                      (aperture_map imx7 (plain_env 0) 0x400000 0) 0x184000] } := by
    decide
  rw [hu] at h
  cases h

/-- C7 amended: for every aperture table with N ≥ 1 non-zero entries before
the zero terminator, the Mapping Builder returns and hands exactly N + 2
regions to map_memarea_sections: the N apertures in table order, then the
secure OCRAM section, then the interrupt controller; for the table of the
source (AIPS1, AIPS2, AIPS3, all non-zero) these are exactly 5 regions. -/
theorem mapping_builder_count (P : Platform) (E : Env) (sz v : Nat)
    (entries : List Nat) (s : State) (hne : entries ≠ [])
    (hnz : ∀ pa ∈ entries, pa ≠ 0) :
    (∃ s1, mapping_builder P E sz v (entries ++ [0]) s = .ok () s1 ∧
      mapped_regions s1.trace = mapped_regions s.trace
        ++ entries.map (aperture_map P E sz) ++ [iram_s_map P E, gic_map P E] ∧
      (mapped_regions s1.trace).length
        = (mapped_regions s.trace).length + (entries.length + 2)) ∧
    (P.AIPS1_BASE ≠ 0 → P.AIPS2_BASE ≠ 0 → P.AIPS3_BASE ≠ 0 →
      ∃ s1, mapping_builder P E sz v (phys_addr_imx7 P) s = .ok () s1 ∧
        (mapped_regions s1.trace).length = (mapped_regions s.trace).length + 5) := by
  have main : ∀ (l : List Nat), l ≠ [] → (∀ pa ∈ l, pa ≠ 0) →
      ∃ s1, mapping_builder P E sz v (l ++ [0]) s = .ok () s1 ∧
        mapped_regions s1.trace = mapped_regions s.trace
          ++ l.map (aperture_map P E sz) ++ [iram_s_map P E, gic_map P E] ∧
        (mapped_regions s1.trace).length
          = (mapped_regions s.trace).length + (l.length + 2) := by
    intro l hl1 hl2
    refine ⟨_, mapping_builder_terminated P E sz v l s hl1 hl2, ?_, ?_⟩
    · simp only [mapped_regions_append, mapped_regions_apertures]
      rfl
    · simp only [mapped_regions_append, mapped_regions_apertures, List.length_append,
        List.length_map]
      rfl
  refine ⟨main entries hne hnz, ?_⟩
  intro h1 h2 h3
  obtain ⟨s1, hs1, _, hlen⟩ := main [P.AIPS1_BASE, P.AIPS2_BASE, P.AIPS3_BASE] (by simp)
    (by
      intro pa hpa
      simp only [List.mem_cons, List.mem_singleton, List.not_mem_nil, or_false] at hpa
      rcases hpa with rfl | rfl | rfl <;> assumption)
  exact ⟨s1, hs1, hlen⟩

/-- C7 amended on the sample platform: the three-entry table of the source
gives exactly 5 regions. -/
theorem mapping_builder_count_witness :
    (∃ s1, mapping_builder imx7 (plain_env 0) 0x400000 0x184000
        ([0x30000000, 0x30400000, 0x30800000] ++ [0]) (State.boot none) = .ok () s1 ∧
      mapped_regions s1.trace = mapped_regions (State.boot none).trace
        ++ [0x30000000, 0x30400000, 0x30800000].map (aperture_map imx7 (plain_env 0) 0x400000)
        ++ [iram_s_map imx7 (plain_env 0), gic_map imx7 (plain_env 0)] ∧
      (mapped_regions s1.trace).length
        = (mapped_regions (State.boot none).trace).length
            + ([0x30000000, 0x30400000, 0x30800000].length + 2)) ∧
    ∃ s1, mapping_builder imx7 (plain_env 0) 0x400000 0x184000 (phys_addr_imx7 imx7)
        (State.boot none) = .ok () s1 ∧
      (mapped_regions s1.trace).length = (mapped_regions (State.boot none).trace).length + 5 :=
  ⟨(mapping_builder_count imx7 (plain_env 0) 0x400000 0x184000
      [0x30000000, 0x30400000, 0x30800000] (State.boot none) (by decide) (by decide)).1,
   (mapping_builder_count imx7 (plain_env 0) 0x400000 0x184000
      [0x30000000, 0x30400000, 0x30800000] (State.boot none) (by decide) (by decide)).2
      (by decide) (by decide) (by decide)⟩

theorem init_tz_ocram_ok_form (P : Platform) (E : Env) (tzm : List String) (s s1 : State)
    (h : init_tz_ocram P E tzm s = .ok () s1) :
    (s1.ocram_tz_start_addr = PADDR_UNSET ∨ s1.ocram_tz_start_addr % 4096 = 0) ∧
      s1.iram_tlb_phys_addr = s.iram_tlb_phys_addr ∧
      mapped_regions s1.trace = mapped_regions s.trace := by
  rcases dt_find_cases tzm s with ⟨site, hp, _⟩ | ⟨r, hr, hal⟩
  · simp only [init_tz_ocram, hp] at h
    cases h
  · simp only [init_tz_ocram, hr] at h
    split at h
    · cases h
    · split at h
      · cases h
      · simp only [Outcome.ok.injEq, true_and] at h
        rw [← h]
        refine ⟨hal, rfl, ?_⟩
        simp [State.emit, mapped_regions_append, mapped_regions]

theorem init_ocram_ok_form (P : Platform) (E : Env) (tzm : List String) (tbl : List Nat)
    (s s1 : State) (res : TEE_Result) (hun : s.iram_tlb_phys_addr = PADDR_UNSET)
    (h : init_ocram P E tzm tbl s = .ok res s1) :
    (s1.ocram_tz_start_addr = PADDR_UNSET ∨ s1.ocram_tz_start_addr % 4096 = 0) ∧
    s1.iram_tlb_phys_addr = u32 (imx_get_ocram_tz_start_addr P s1 + P.IRAM_TBL_OFFSET) ∧
    ∃ n, mapped_regions s1.trace = mapped_regions s.trace
      ++ (tbl.take n).map (aperture_map P E P.AIPS1_SIZE) ++ [iram_s_map P E, gic_map P E] := by
  unfold init_ocram at h
  rw [if_neg (by simpa using hun)] at h
  cases ht : init_tz_ocram P E tzm s with
  | panic site s2 => rw [ht] at h; cases h
  | undefined s2 => rw [ht] at h; cases h
  | ok u s2 =>
    rw [ht] at h
    obtain ⟨hal, _, hmr⟩ := init_tz_ocram_ok_form P E tzm s s2 ht
    simp only at h
    split at h
    · cases h
    · cases h
    · rename_i u2 s6 hm
      simp only [Outcome.ok.injEq] at h
      obtain ⟨_, h⟩ := h
      subst h
      obtain ⟨n, hn⟩ := mapping_builder_ok_form _ _ _ _ _ _ _ hm
      rw [hn]
      refine ⟨hal, rfl, n, ?_⟩
      simp only [State.emit, mapped_regions_append, mapped_regions_apertures, mapped_regions,
        List.append_nil, hmr]

theorem rounddown_eq (v g : Nat) : ROUNDDOWN v g = g * (v / g) := by
  unfold ROUNDDOWN
  have := Nat.div_add_mod v g
  omega

theorem section_covers_iff (base buf g : Nat) (hg : 0 < g) :
    (ROUNDDOWN base g ≤ buf ∧ buf < ROUNDDOWN base g + g) ↔
      ROUNDDOWN buf g = ROUNDDOWN base g := by
  rw [rounddown_eq, rounddown_eq]
  constructor
  · rintro ⟨h1, h2⟩
    have h3 : base / g ≤ buf / g := by
      rw [Nat.le_div_iff_mul_le hg]
      rw [Nat.mul_comm]
      exact h1
    have h4 : buf / g < base / g + 1 := by
      rw [Nat.div_lt_iff_lt_mul hg]
      rw [Nat.add_mul, Nat.one_mul, Nat.mul_comm]
      exact h2
    have h5 : buf / g = base / g := by omega
    rw [h5]
  · intro h
    have h5 : buf / g = base / g := Nat.eq_of_mul_eq_mul_left hg h
    rw [← h5]
    have hb := Nat.div_add_mod buf g
    have hm := Nat.mod_lt buf hg
    constructor
    · omega
    · omega

/-- C9 as stated fails: on the sample platform, with a secure-SRAM node at
0x00900000, the Locator gives the boundary 0x00900000 and the scratch buffer
starts at 0x00904000, but the first extra region starts at 0x00100000, the
section of IRAM_S_BASE, which is not 0x00904000 rounded down to a section and
does not reach the buffer. -/
theorem iram_s_region_counterexample :
    init_ocram imx7 (plain_env 0) tz_ocram_match (phys_addr_imx7 imx7)
        (State.boot (some (fdt_one 0x00900000)))
      = .ok .TEE_SUCCESS (init_ocram imx7 (plain_env 0) tz_ocram_match (phys_addr_imx7 imx7)
          (State.boot (some (fdt_one 0x00900000)))).state ∧
    imx_get_ocram_tz_start_addr imx7
        (init_ocram imx7 (plain_env 0) tz_ocram_match (phys_addr_imx7 imx7)
          (State.boot (some (fdt_one 0x00900000)))).state = 0x00900000 ∧
    (init_ocram imx7 (plain_env 0) tz_ocram_match (phys_addr_imx7 imx7)
        (State.boot (some (fdt_one 0x00900000)))).state.iram_tlb_phys_addr = 0x00904000 ∧
    mapped_regions (init_ocram imx7 (plain_env 0) tz_ocram_match (phys_addr_imx7 imx7)
        (State.boot (some (fdt_one 0x00900000)))).state.trace
      = [aperture_map imx7 (plain_env 0) 0x400000 0x30000000,
         aperture_map imx7 (plain_env 0) 0x400000 0x30400000,
         aperture_map imx7 (plain_env 0) 0x400000 0x30800000,
         iram_s_map imx7 (plain_env 0), gic_map imx7 (plain_env 0)] ∧
    (iram_s_map imx7 (plain_env 0)).pa = 0x00100000 ∧
    (iram_s_map imx7 (plain_env 0)).pa ≠ ROUNDDOWN 0x00904000 imx7.CORE_MMU_PGDIR_SIZE ∧
    ¬ (0x00904000
        < (iram_s_map imx7 (plain_env 0)).pa + (iram_s_map imx7 (plain_env 0)).size) := by
  refine ⟨by decide, by decide, by decide, by decide, by decide, by decide, by decide⟩

/-- C9 amended: in every run of init_ocram that starts uninitialised and
returns, the first extra region handed to the page-table writer, right after
the aperture regions, is the section of the constant IRAM_S_BASE, whatever
the boundary: its physical base is IRAM_S_BASE rounded down to
CORE_MMU_PGDIR_SIZE and its span is one section; it covers the start of the
scratch buffer (boundary + IRAM_TBL_OFFSET) exactly when the buffer address
rounded down to a section is that same base. -/
theorem iram_s_region_fixed (P : Platform) (E : Env) (tzm : List String)
    (tbl : List Nat) (s s1 : State) (res : TEE_Result)
    (hun : s.iram_tlb_phys_addr = PADDR_UNSET) (hg : 0 < P.CORE_MMU_PGDIR_SIZE)
    (h : init_ocram P E tzm tbl s = .ok res s1) :
    s1.iram_tlb_phys_addr = u32 (imx_get_ocram_tz_start_addr P s1 + P.IRAM_TBL_OFFSET) ∧
    ∃ (aps : List tee_mmap_region) (x1 x2 : tee_mmap_region),
      mapped_regions s1.trace = mapped_regions s.trace ++ aps ++ [x1, x2] ∧
      (∃ n, aps = (tbl.take n).map (aperture_map P E P.AIPS1_SIZE)) ∧
      x1.pa = ROUNDDOWN P.IRAM_S_BASE P.CORE_MMU_PGDIR_SIZE ∧
      x1.size = P.CORE_MMU_PGDIR_SIZE ∧
      ((x1.pa ≤ s1.iram_tlb_phys_addr ∧ s1.iram_tlb_phys_addr < x1.pa + x1.size) ↔
        ROUNDDOWN s1.iram_tlb_phys_addr P.CORE_MMU_PGDIR_SIZE = x1.pa) := by
  obtain ⟨_, h2, n, h3⟩ := init_ocram_ok_form P E tzm tbl s s1 res hun h
  refine ⟨h2, _, iram_s_map P E, gic_map P E, h3, ⟨n, rfl⟩, rfl, rfl, ?_⟩
  exact section_covers_iff P.IRAM_S_BASE s1.iram_tlb_phys_addr P.CORE_MMU_PGDIR_SIZE hg

/-- C9 amended on the sample platform with the node at 0x00180000: the
buffer at 0x00184000 lies in the section of IRAM_S_BASE. -/
theorem iram_s_region_fixed_witness :
    (init_ocram imx7 (plain_env 0) tz_ocram_match (phys_addr_imx7 imx7)
        (State.boot (some (fdt_one 0x180000)))).state.iram_tlb_phys_addr
      = u32 (imx_get_ocram_tz_start_addr imx7
          (init_ocram imx7 (plain_env 0) tz_ocram_match (phys_addr_imx7 imx7)
            (State.boot (some (fdt_one 0x180000)))).state + imx7.IRAM_TBL_OFFSET) ∧
    ∃ (aps : List tee_mmap_region) (x1 x2 : tee_mmap_region),
      mapped_regions (init_ocram imx7 (plain_env 0) tz_ocram_match (phys_addr_imx7 imx7)
          (State.boot (some (fdt_one 0x180000)))).state.trace
        = mapped_regions (State.boot (some (fdt_one 0x180000))).trace ++ aps ++ [x1, x2] ∧
      (∃ n, aps = ((phys_addr_imx7 imx7).take n).map
          (aperture_map imx7 (plain_env 0) imx7.AIPS1_SIZE)) ∧
      x1.pa = ROUNDDOWN imx7.IRAM_S_BASE imx7.CORE_MMU_PGDIR_SIZE ∧
      x1.size = imx7.CORE_MMU_PGDIR_SIZE ∧
      ((x1.pa ≤ (init_ocram imx7 (plain_env 0) tz_ocram_match (phys_addr_imx7 imx7)
            (State.boot (some (fdt_one 0x180000)))).state.iram_tlb_phys_addr ∧
          (init_ocram imx7 (plain_env 0) tz_ocram_match (phys_addr_imx7 imx7)
            (State.boot (some (fdt_one 0x180000)))).state.iram_tlb_phys_addr
            < x1.pa + x1.size) ↔
        ROUNDDOWN (init_ocram imx7 (plain_env 0) tz_ocram_match (phys_addr_imx7 imx7)
            (State.boot (some (fdt_one 0x180000)))).state.iram_tlb_phys_addr
          imx7.CORE_MMU_PGDIR_SIZE = x1.pa) :=
  iram_s_region_fixed imx7 (plain_env 0) tz_ocram_match (phys_addr_imx7 imx7)
    (State.boot (some (fdt_one 0x180000))) _ .TEE_SUCCESS rfl (by decide) (by decide)

theorem reg_writes_append (xs ys : List Event) :
    reg_writes (xs ++ ys) = reg_writes xs ++ reg_writes ys := by
  induction xs with
  | nil => rfl
  | cons e rest ih => cases e <;> simp [reg_writes, ih]

theorem reg_writes_apertures (P : Platform) (E : Env) (sz v : Nat) (l : List Nat) :
    reg_writes (l.map (aperture_event P E sz v)) = [] := by
  induction l with
  | nil => rfl
  | cons pa rest ih => simp [reg_writes, aperture_event, ih]

theorem reg_writes_first_call (P : Platform) (E : Env) (tbl : List Nat) (s0 : State)
    (n : Nat) : reg_writes (first_call_effects P E tbl s0 n) = lock_writes P E s0 := by
  unfold first_call_effects lock_writes
  simp only []
  rw [reg_writes_append, reg_writes_append, reg_writes_apertures]
  rfl

theorem init_tz_ocram_ok_exact (P : Platform) (E : Env) (tzm : List String) (s s1 : State)
    (h : init_tz_ocram P E tzm s = .ok () s1) :
    ∃ s0, dt_find_ocram_tz_addr tzm s = .ok () s0 ∧ s0.trace = s.trace ∧
      s1 = after_lock_writes P E s0 := by
  rcases dt_find_cases tzm s with ⟨site, hp, _⟩ | ⟨r, hr, _⟩
  · simp only [init_tz_ocram, hp] at h
    cases h
  · refine ⟨_, hr, rfl, ?_⟩
    simp only [init_tz_ocram, hr] at h
    split at h
    · cases h
    · split at h
      · cases h
      · simp only [Outcome.ok.injEq, true_and] at h
        rw [← h]
        rfl

theorem init_ocram_first_call_trace (P : Platform) (E : Env) (tzm : List String)
    (tbl : List Nat) (s s1 : State) (res : TEE_Result)
    (hun : s.iram_tlb_phys_addr = PADDR_UNSET)
    (h : init_ocram P E tzm tbl s = .ok res s1) :
    ∃ s0 n, dt_find_ocram_tz_addr tzm s = .ok () s0 ∧
      s1.trace = s.trace ++ first_call_effects P E tbl s0 n := by
  unfold init_ocram at h
  rw [if_neg (by simpa using hun)] at h
  cases ht : init_tz_ocram P E tzm s with
  | panic site s2 => rw [ht] at h; cases h
  | undefined s2 => rw [ht] at h; cases h
  | ok u s2 =>
    rw [ht] at h
    obtain ⟨s0, hs0, htr, hs2⟩ := init_tz_ocram_ok_exact P E tzm s s2 ht
    simp only at h
    split at h
    · cases h
    · cases h
    · rename_i u2 s6 hm
      simp only [Outcome.ok.injEq] at h
      obtain ⟨_, h⟩ := h
      subst h
      obtain ⟨n, hn⟩ := mapping_builder_ok_form _ _ _ _ _ _ _ hm
      refine ⟨s0, n, hs0, ?_⟩
      rw [hn, hs2, ← htr]
      simp [State.emit, after_lock_writes, first_call_effects, imx_get_ocram_tz_start_addr]

/-- C6: on a platform whose default boundary and scratch-buffer offset are
multiples of 4096, whenever a call of init_ocram returns, in state s1, the
next call returns TEE_SUCCESS at once and leaves the state exactly s1: the
globals and the whole trace are unchanged, so it adds no register write, no
description rewrite, no zeroing and no page-table insertion. When the first
call started uninitialised, it performed exactly the effects of
first_call_effects after the Locator returned: the write of the configured
value and the write of the locked value to the OCRAM GPR register, the two
description rewrites, one zeroing of the scratch buffer and the page-table
insertions; and the trace after the two calls holds these same effects and
these same two register writes, each once. -/
theorem init_ocram_idempotent (P : Platform) (E : Env) (tzm : List String)
    (tbl : List Nat) (s s1 : State) (res : TEE_Result)
    (hdef : P.TRUSTZONE_OCRAM_START % 4096 = 0) (hoff : P.IRAM_TBL_OFFSET % 4096 = 0)
    (h : init_ocram P E tzm tbl s = .ok res s1) :
    init_ocram P E tzm tbl s1 = .ok .TEE_SUCCESS s1 ∧
    (init_ocram P E tzm tbl s1).state.trace = s1.trace ∧
    reg_writes (init_ocram P E tzm tbl s1).state.trace = reg_writes s1.trace ∧
    (s.iram_tlb_phys_addr = PADDR_UNSET →
      ∃ s0 n, dt_find_ocram_tz_addr tzm s = .ok () s0 ∧
        s1.trace = s.trace ++ first_call_effects P E tbl s0 n ∧
        reg_writes s1.trace = reg_writes s.trace ++ lock_writes P E s0 ∧
        (init_ocram P E tzm tbl s1).state.trace
          = s.trace ++ first_call_effects P E tbl s0 n ∧
        reg_writes (init_ocram P E tzm tbl s1).state.trace
          = reg_writes s.trace ++ lock_writes P E s0 ∧
        (reg_writes (init_ocram P E tzm tbl s1).state.trace).length
          = (reg_writes s.trace).length + 2) := by
  have key : s1.iram_tlb_phys_addr ≠ PADDR_UNSET := by
    by_cases hun : s.iram_tlb_phys_addr = PADDR_UNSET
    · obtain ⟨hal, hbuf, _⟩ := init_ocram_ok_form P E tzm tbl s s1 res hun h
      have hb : imx_get_ocram_tz_start_addr P s1 % 4096 = 0 := by
        unfold imx_get_ocram_tz_start_addr
        split
        · rename_i hne
          rcases hal with hal | hal
          · exact absurd hal hne
          · exact hal
        · exact hdef
      rw [hbuf]
      unfold u32 PADDR_UNSET
      omega
    · unfold init_ocram at h
      rw [if_pos hun] at h
      simp only [Outcome.ok.injEq] at h
      rw [← h.2]
      exact hun
  have h2 : init_ocram P E tzm tbl s1 = .ok .TEE_SUCCESS s1 := by
    unfold init_ocram
    rw [if_pos key]
  rw [h2]
  refine ⟨rfl, rfl, rfl, ?_⟩
  intro hun
  obtain ⟨s0, n, hs0, htr⟩ := init_ocram_first_call_trace P E tzm tbl s s1 res hun h
  have hrw : reg_writes s1.trace = reg_writes s.trace ++ lock_writes P E s0 := by
    rw [htr, reg_writes_append, reg_writes_first_call]
  refine ⟨s0, n, hs0, htr, hrw, htr, hrw, ?_⟩
  show (reg_writes s1.trace).length = _
  rw [hrw, List.length_append]
  rfl

/-- C6 on the sample platform: the first call from boot returns after the
two register writes 0x400 and 0x3C000400, and the second call returns at
once in the same state, with these two writes still the only ones. -/
theorem init_ocram_idempotent_witness :
    init_ocram imx7 (plain_env 0) tz_ocram_match (phys_addr_imx7 imx7)
        (init_ocram imx7 (plain_env 0) tz_ocram_match (phys_addr_imx7 imx7)
          (State.boot (some (fdt_one 0x180000)))).state
      = .ok .TEE_SUCCESS
          (init_ocram imx7 (plain_env 0) tz_ocram_match (phys_addr_imx7 imx7)
            (State.boot (some (fdt_one 0x180000)))).state ∧
    reg_writes (init_ocram imx7 (plain_env 0) tz_ocram_match (phys_addr_imx7 imx7)
        (init_ocram imx7 (plain_env 0) tz_ocram_match (phys_addr_imx7 imx7)
          (State.boot (some (fdt_one 0x180000)))).state).state.trace
      = reg_writes (init_ocram imx7 (plain_env 0) tz_ocram_match (phys_addr_imx7 imx7)
          (State.boot (some (fdt_one 0x180000)))).state.trace ∧
    ∃ s0 n, dt_find_ocram_tz_addr tz_ocram_match (State.boot (some (fdt_one 0x180000)))
          = .ok () s0 ∧
      (init_ocram imx7 (plain_env 0) tz_ocram_match (phys_addr_imx7 imx7)
          (State.boot (some (fdt_one 0x180000)))).state.trace
        = (State.boot (some (fdt_one 0x180000))).trace
            ++ first_call_effects imx7 (plain_env 0) (phys_addr_imx7 imx7) s0 n ∧
      reg_writes (init_ocram imx7 (plain_env 0) tz_ocram_match (phys_addr_imx7 imx7)
          (State.boot (some (fdt_one 0x180000)))).state.trace
        = reg_writes (State.boot (some (fdt_one 0x180000))).trace
            ++ lock_writes imx7 (plain_env 0) s0 ∧
      (init_ocram imx7 (plain_env 0) tz_ocram_match (phys_addr_imx7 imx7)
          (init_ocram imx7 (plain_env 0) tz_ocram_match (phys_addr_imx7 imx7)
            (State.boot (some (fdt_one 0x180000)))).state).state.trace
        = (State.boot (some (fdt_one 0x180000))).trace
            ++ first_call_effects imx7 (plain_env 0) (phys_addr_imx7 imx7) s0 n ∧
      reg_writes (init_ocram imx7 (plain_env 0) tz_ocram_match (phys_addr_imx7 imx7)
          (init_ocram imx7 (plain_env 0) tz_ocram_match (phys_addr_imx7 imx7)
            (State.boot (some (fdt_one 0x180000)))).state).state.trace
        = reg_writes (State.boot (some (fdt_one 0x180000))).trace
            ++ lock_writes imx7 (plain_env 0) s0 ∧
      (reg_writes (init_ocram imx7 (plain_env 0) tz_ocram_match (phys_addr_imx7 imx7)
          (init_ocram imx7 (plain_env 0) tz_ocram_match (phys_addr_imx7 imx7)
            (State.boot (some (fdt_one 0x180000)))).state).state.trace).length
        = (reg_writes (State.boot (some (fdt_one 0x180000))).trace).length + 2 :=
  ⟨(init_ocram_idempotent imx7 (plain_env 0) tz_ocram_match (phys_addr_imx7 imx7)
      (State.boot (some (fdt_one 0x180000))) _ .TEE_SUCCESS (by decide) (by decide)
      (by decide)).1,
   (init_ocram_idempotent imx7 (plain_env 0) tz_ocram_match (phys_addr_imx7 imx7)
      (State.boot (some (fdt_one 0x180000))) _ .TEE_SUCCESS (by decide) (by decide)
      (by decide)).2.2.1,
   (init_ocram_idempotent imx7 (plain_env 0) tz_ocram_match (phys_addr_imx7 imx7)
      (State.boot (some (fdt_one 0x180000))) _ .TEE_SUCCESS (by decide) (by decide)
      (by decide)).2.2.2 rfl⟩

/-- The source of the C10 defect in general: for a supported algorithm and
a non-null `ctx`, a failed `calloc` gives TEE_SUCCESS and stores NULL. -/
theorem do_allocate_ignores_calloc_failure (idx : Nat → Int) (algo : Nat) (old : Ptr)
    (h : idx algo ≠ -1) :
    do_allocate idx none (some old) algo = (.TEE_SUCCESS, some none) := by
  simp [do_allocate, h]

/-- C10 fails on the code: for a supported algorithm and a non-null caller
variable, when calloc returns NULL do_allocate returns TEE_SUCCESS, not
TEE_ERROR_OUT_OF_MEMORY, and the caller variable holds NULL; the null test
is made on `ctx` instead of `hmac_ctx`. The other two return paths are as
documented: no hash index gives TEE_ERROR_NOT_IMPLEMENTED. -/
theorem do_allocate_calloc_failure_returns_success :
    do_allocate sample_hashindex none (some (some 0x1000)) 0
        = (.TEE_SUCCESS, some none) ∧
      do_allocate sample_hashindex none (some (some 0x1000)) 0
        ≠ (.TEE_ERROR_OUT_OF_MEMORY, some (some 0x1000)) ∧
      do_allocate sample_hashindex (some 0x2000) (some none) 9
        = (.TEE_ERROR_NOT_IMPLEMENTED, some none) := by
  decide

end ImxOptee
